import Mathlib

/-!
Shallow embedding of the cloudgrow-sim core: ASHRAE psychrometrics
(src/cloudgrow_sim/physics/psychrometrics.py), sky temperature
(physics/heat_transfer.py), the per-step simulation engine physics
(simulation/engine.py), and the PID / staged / schedule controllers
(controllers/pid.py, staged.py, schedule.py).

Real-valued physics is embedded over ℝ (Python floats carry exp/log);
fallible code (raising ValueError / RuntimeError) is embedded as Option.
The discrete controllers are embedded over ℚ so that concrete runs are
decidable.
-/

namespace CloudGrow

/-! ## Physical constants (physics/constants.py) -/

/-- EPSILON = MOLECULAR_WEIGHT_WATER / MOLECULAR_WEIGHT_DRY_AIR. -/
noncomputable def EPSILON : ℝ := 18.015 / 28.966

noncomputable def STANDARD_PRESSURE : ℝ := 101325

noncomputable def STANDARD_AIR_DENSITY : ℝ := 1.225

noncomputable def C_P_DRY_AIR : ℝ := 1006

noncomputable def STEFAN_BOLTZMANN : ℝ := 0.00000005670374419

/-! ## Psychrometrics (physics/psychrometrics.py) -/

/-- Hyland-Wexler ln(p_ws) over water, ASHRAE equation 6, with the
temperature already converted to Kelvin inside. Coefficients are
SAT_PRESSURE_WATER_C1..C6 of physics/constants.py. -/
noncomputable def ln_pws_water (t : ℝ) : ℝ :=
  -5800.2206 / (t + 273.15) + 1.3914993
    + (-0.048640239) * (t + 273.15)
    + 0.000041764768 * (t + 273.15) ^ 2
    + (-0.000000014452093) * (t + 273.15) ^ 3
    + 6.5459673 * Real.log (t + 273.15)

/-- Hyland-Wexler ln(p_ws) over ice, ASHRAE equation 5. Coefficients are
SAT_PRESSURE_ICE_C1..C7 of physics/constants.py. -/
noncomputable def ln_pws_ice (t : ℝ) : ℝ :=
  -5674.5359 / (t + 273.15) + 6.3925247
    + (-0.0096778430) * (t + 273.15)
    + 0.00000062215701 * (t + 273.15) ^ 2
    + 0.0000000020747825 * (t + 273.15) ^ 3
    + (-0.00000000000094840240) * (t + 273.15) ^ 4
    + 4.1635019 * Real.log (t + 273.15)

/-- saturation_pressure with the default ice=False argument (the only form
the engine and the other psychrometric functions call): ice is auto-selected
for t < 0; out-of-range temperatures raise ValueError, embedded as none. -/
noncomputable def saturation_pressure (t : ℝ) : Option ℝ :=
  if t < 0 then
    if t < -100 then none else some (Real.exp (ln_pws_ice t))
  else
    if 200 < t then none else some (Real.exp (ln_pws_water t))

/-- humidity_ratio(t, rh, p): W = EPSILON * p_w / (p - p_w); raises for
rh outside [0, 100] and for p - p_w <= 0. -/
noncomputable def humidity_ratio (t rh p : ℝ) : Option ℝ :=
  if ¬(0 ≤ rh ∧ rh ≤ 100) then none
  else
    match saturation_pressure t with
    | none => none
    | some p_ws =>
      let p_w := rh / 100 * p_ws
      if p - p_w ≤ 0 then none
      else some (EPSILON * p_w / (p - p_w))

/-- relative_humidity(t, w, p): inverse of humidity_ratio, result clamped
to [0, 100]. -/
noncomputable def relative_humidity (t w p : ℝ) : Option ℝ :=
  match saturation_pressure t with
  | none => none
  | some p_ws =>
    let p_w := p * w / (EPSILON + w)
    some (min 100 (max 0 (100 * p_w / p_ws)))

/-- humidity_ratio_from_wet_bulb(t_db, t_wb, p): ASHRAE equation 35 with
the water/ice branch at t_wb = 0; raises when t_wb > t_db. -/
noncomputable def humidity_ratio_from_wet_bulb (t_db t_wb p : ℝ) : Option ℝ :=
  if t_db < t_wb then none
  else
    match humidity_ratio t_wb 100 p with
    | none => none
    | some w_s_wb =>
      let w :=
        if 0 ≤ t_wb then
          ((2501 - 2.326 * t_wb) * w_s_wb - 1.006 * (t_db - t_wb)) /
            (2501 + 1.86 * t_db - 4.186 * t_wb)
        else
          ((2830 - 0.24 * t_wb) * w_s_wb - 1.006 * (t_db - t_wb)) /
            (2830 + 1.86 * t_db - 2.1 * t_wb)
      some (max 0 w)

/-- Magnus-Tetens dew point formula (the 0 < rh ≤ 100 branch of dew_point). -/
noncomputable def magnus_dew_point (t rh : ℝ) : ℝ :=
  let alpha := 17.27 * t / (237.7 + t) + Real.log (rh / 100)
  237.7 * alpha / (17.27 - alpha)

/-- dew_point(t, rh): rh = 0 returns the absolute-zero sentinel; rh outside
[0, 100] raises ValueError (none); otherwise the Magnus-Tetens value. -/
noncomputable def dew_point (t rh : ℝ) : Option ℝ :=
  if 0 < rh ∧ rh ≤ 100 then some (magnus_dew_point t rh)
  else if rh = 0 then some (-273.15)
  else none

/-- The absolute tolerance floor _HUMIDITY_RATIO_MIN_TOL = 1e-8. -/
noncomputable def wet_bulb_tol_floor : ℝ := 0.00000001

/-- The bisection loop of wet_bulb_temperature: fuel counts the remaining
iterations (max_iter); exhausting it models the RuntimeError. -/
noncomputable def wet_bulb_go (t p w_target eff_tol : ℝ) :
    ℕ → ℝ → ℝ → Option ℝ
  | 0, _, _ => none
  | fuel + 1, t_low, t_high =>
    let t_mid := (t_low + t_high) / 2
    match humidity_ratio_from_wet_bulb t t_mid p with
    | none => none
    | some w_calc =>
      if |w_calc - w_target| < eff_tol then some t_mid
      else if w_calc < w_target then
        wet_bulb_go t p w_target eff_tol fuel t_mid t_high
      else
        wet_bulb_go t p w_target eff_tol fuel t_low t_mid

/-- wet_bulb_temperature(t, rh, p, tol, max_iter): bisection over
[max(-100, dew_point - 1), t] targeting humidity_ratio(t, rh, p) with
effective tolerance max(tol * w_target, 1e-8). -/
noncomputable def wet_bulb_temperature (t rh p tol : ℝ) (max_iter : ℕ) :
    Option ℝ :=
  match humidity_ratio t rh p, dew_point t rh with
  | some w_target, some t_dew =>
    wet_bulb_go t p w_target (max (tol * w_target) wet_bulb_tol_floor)
      max_iter (max (-100) (t_dew - 1)) t
  | _, _ => none

/-! ## Heat transfer pieces the engine uses (physics/heat_transfer.py) -/

/-- conduction_heat_transfer: Q = U * A * (T_in - T_out). -/
noncomputable def conduction_heat_transfer (u_value area t_inside t_outside : ℝ) : ℝ :=
  u_value * area * (t_inside - t_outside)

/-- sky_temperature(t_ambient, rh, cloud_cover): Berdahl-Fromberg clear-sky
emissivity from the dew point, clamped to [0,1], blended with cloud cover;
T_sky = T_K * eps_sky^0.25 - 273.15 (Python `**` on floats is rpow). -/
noncomputable def sky_temperature (t_ambient rh cloud_cover : ℝ) : Option ℝ :=
  match dew_point t_ambient rh with
  | none => none
  | some t_dp =>
    let epsilon_clear := max 0 (min 1 (0.741 + 0.0062 * t_dp))
    let epsilon_sky := epsilon_clear + cloud_cover * (1 - epsilon_clear)
    some ((t_ambient + 273.15) * epsilon_sky ^ (0.25 : ℝ) - 273.15)

/-! ## State model (core/state.py) -/

structure AirState where
  temperature : ℝ
  humidity : ℝ
  pressure : ℝ
  co2_ppm : ℝ

structure Location where
  latitude : ℝ
  longitude : ℝ
  elevation : ℝ

structure GreenhouseGeometry where
  length : ℝ
  width : ℝ
  height_ridge : ℝ
  height_eave : ℝ

/-- GreenhouseGeometry.floor_area. -/
noncomputable def floor_area (g : GreenhouseGeometry) : ℝ := g.length * g.width

/-- GreenhouseGeometry.volume: trapezoidal approximation. -/
noncomputable def volume (g : GreenhouseGeometry) : ℝ :=
  g.length * g.width * ((g.height_eave + g.height_ridge) / 2)

/-- GreenhouseGeometry.wall_area: sidewalls plus trapezoidal end walls. -/
noncomputable def wall_area (g : GreenhouseGeometry) : ℝ :=
  2 * g.length * g.height_eave +
    2 * (g.width * g.height_eave +
      0.5 * g.width * (g.height_ridge - g.height_eave))

/-- GreenhouseGeometry.roof_area: two sloped surfaces; the slope length is
(half_width^2 + roof_rise^2) ** 0.5 (Python float `**`, i.e. rpow). -/
noncomputable def roof_area (g : GreenhouseGeometry) : ℝ :=
  2 * g.length *
    ((g.width / 2) ^ 2 + (g.height_ridge - g.height_eave) ^ 2) ^ (0.5 : ℝ)

structure CoveringProperties where
  transmittance_solar : ℝ
  transmittance_par : ℝ
  transmittance_thermal : ℝ
  u_value : ℝ
  reflectance_solar : ℝ

/-- GreenhouseState; `time` is the simulation timestamp in epoch seconds. -/
structure GreenhouseState where
  time : ℝ
  interior : AirState
  exterior : AirState
  solar_radiation : ℝ
  wind_speed : ℝ
  wind_direction : ℝ
  location : Location
  geometry : GreenhouseGeometry
  covering : CoveringProperties

/-- WeatherConditions as the engine reads them from its WeatherSource. -/
structure WeatherConditions where
  temperature : ℝ
  humidity : ℝ
  pressure : ℝ
  solar_radiation : ℝ
  wind_speed : ℝ
  wind_direction : ℝ

/-! ## Simulation engine physics (simulation/engine.py)

Sensors, controllers and actuators are external collaborators of the
engine's step; their aggregated effect enters the physics only through
the ActuatorTotals record (_aggregate_actuator_effects), which the
embedded step therefore takes as an input. -/

structure ActuatorTotals where
  ventilation_rate : ℝ
  heating : ℝ
  cooling : ℝ
  humidity_addition : ℝ
  co2_injection : ℝ

noncomputable def MAX_TEMP_CHANGE_RATE : ℝ := 0.1

noncomputable def GREENHOUSE_EFFECTIVE_EMISSIVITY : ℝ := 0.1

/-- SimulationEngine._update_exterior_conditions: replace the exterior
AirState (keeping exterior CO2), solar, wind and time from the weather
source; everything else is carried over. -/
noncomputable def update_exterior_conditions (now : ℝ) (w : WeatherConditions)
    (s : GreenhouseState) : GreenhouseState :=
  { time := now
    interior := s.interior
    exterior :=
      { temperature := w.temperature
        humidity := w.humidity
        pressure := w.pressure
        co2_ppm := s.exterior.co2_ppm }
    solar_radiation := w.solar_radiation
    wind_speed := w.wind_speed
    wind_direction := w.wind_direction
    location := s.location
    geometry := s.geometry
    covering := s.covering }

/-- SimulationEngine._calculate_heat_balance. -/
noncomputable def calculate_heat_balance (s : GreenhouseState)
    (totals : ActuatorTotals) : Option ℝ :=
  match sky_temperature s.exterior.temperature s.exterior.humidity 0.3 with
  | none => none
  | some t_sky =>
    let solar_transmitted :=
      s.solar_radiation * s.covering.transmittance_solar * floor_area s.geometry
    let q_conduction :=
      conduction_heat_transfer s.covering.u_value
        (wall_area s.geometry + roof_area s.geometry)
        s.interior.temperature s.exterior.temperature
    let q_ventilation :=
      totals.ventilation_rate * STANDARD_AIR_DENSITY * C_P_DRY_AIR *
        (s.interior.temperature - s.exterior.temperature)
    let q_radiation :=
      GREENHOUSE_EFFECTIVE_EMISSIVITY * STEFAN_BOLTZMANN * roof_area s.geometry *
        ((s.interior.temperature + 273.15) ^ 4 - (t_sky + 273.15) ^ 4)
    some (solar_transmitted + totals.heating - q_conduction - q_ventilation -
      q_radiation - totals.cooling)

/-- SimulationEngine._apply_temperature_change: dT = Q dt / (m cp),
rate-limited to ±MAX_TEMP_CHANGE_RATE·dt, then clamped to [-50, 60]. -/
noncomputable def apply_temperature_change (dt : ℝ) (s : GreenhouseState)
    (q_net : ℝ) : ℝ :=
  let air_mass := volume s.geometry * STANDARD_AIR_DENSITY
  let dt_temp := q_net * dt / (air_mass * C_P_DRY_AIR)
  let max_temp_change := MAX_TEMP_CHANGE_RATE * dt
  let dt_limited := max (-max_temp_change) (min max_temp_change dt_temp)
  max (-50) (min 60 (s.interior.temperature + dt_limited))

/-- SimulationEngine._calculate_moisture_balance: humidity ratios at the
default standard pressure, ventilation and humidification moisture balance,
floor at 0.001 kg/kg, conversion back to RH at the new temperature,
clamp to [10, 100]. -/
noncomputable def calculate_moisture_balance (dt : ℝ) (s : GreenhouseState)
    (totals : ActuatorTotals) (new_temp : ℝ) : Option ℝ :=
  match humidity_ratio s.interior.temperature s.interior.humidity
          STANDARD_PRESSURE,
        humidity_ratio s.exterior.temperature s.exterior.humidity
          STANDARD_PRESSURE with
  | some w_int, some w_ext =>
    let moisture_ventilation :=
      totals.ventilation_rate * STANDARD_AIR_DENSITY * (w_ext - w_int)
    let air_mass := volume s.geometry * STANDARD_AIR_DENSITY
    let dw := (moisture_ventilation + totals.humidity_addition) * dt / air_mass
    let new_w := max 0.001 (w_int + dw)
    match relative_humidity new_temp new_w STANDARD_PRESSURE with
    | none => none
    | some new_rh => some (max 10 (min 100 new_rh))
  | _, _ => none

/-- SimulationEngine._calculate_co2_balance: ventilation exchange plus
injection (m^3/s of pure CO2 scaled by 1e6/volume), clamped to [200, 5000]. -/
noncomputable def calculate_co2_balance (dt : ℝ) (s : GreenhouseState)
    (totals : ActuatorTotals) : ℝ :=
  let co2_ventilation_rate :=
    totals.ventilation_rate * (s.exterior.co2_ppm - s.interior.co2_ppm) /
      volume s.geometry
  let co2_injection_rate := totals.co2_injection * 1000000 / volume s.geometry
  let d_co2 := (co2_ventilation_rate + co2_injection_rate) * dt
  max 200 (min 5000 (s.interior.co2_ppm + d_co2))

/-- SimulationEngine._update_interior_state: reconstruct the state with the
new interior AirState; every other field is carried over. -/
noncomputable def update_interior_state (now : ℝ) (s : GreenhouseState)
    (new_temp new_rh new_co2 : ℝ) : GreenhouseState :=
  { time := now
    interior :=
      { temperature := new_temp
        humidity := new_rh
        pressure := s.interior.pressure
        co2_ppm := new_co2 }
    exterior := s.exterior
    solar_radiation := s.solar_radiation
    wind_speed := s.wind_speed
    wind_direction := s.wind_direction
    location := s.location
    geometry := s.geometry
    covering := s.covering }

/-- SimulationEngine._calculate_physics: heat balance, temperature change,
moisture balance (at the new temperature), CO2 balance, then state
reconstruction. Climate modifiers are external and do not touch the state. -/
noncomputable def calculate_physics (dt now : ℝ) (s : GreenhouseState)
    (totals : ActuatorTotals) : Option GreenhouseState :=
  match calculate_heat_balance s totals with
  | none => none
  | some q_net =>
    let new_temp := apply_temperature_change dt s q_net
    match calculate_moisture_balance dt s totals new_temp with
    | none => none
    | some new_rh =>
      let new_co2 := calculate_co2_balance dt s totals
      some (update_interior_state now s new_temp new_rh new_co2)

/-- SimulationEngine.step, from the exterior weather update through the
physics update; sensor reads, controller computes, actuator effects and
telemetry are external collaborators, entering only through `totals`. -/
noncomputable def engine_step (dt now : ℝ) (w : WeatherConditions)
    (totals : ActuatorTotals) (s : GreenhouseState) : Option GreenhouseState :=
  calculate_physics dt now (update_exterior_conditions now w s) totals

/-! ## PID controller (controllers/pid.py), over ℚ -/

structure PIDState where
  kp : ℚ
  ki : ℚ
  kd : ℚ
  setpoint : ℚ
  out_min : ℚ
  out_max : ℚ
  anti_windup : Bool
  derivative_filter : ℚ
  reverse_acting : Bool
  integral : ℚ
  last_error : Option ℚ
  last_derivative : ℚ
  last_pv : Option ℚ
  output : ℚ
  deriving Repr, DecidableEq

/-- PIDController.compute(process_value, dt); returns the clamped output and
the controller state after the call. -/
def pid_compute (c : PIDState) (process_value dt : ℚ) : ℚ × PIDState :=
  if dt ≤ 0 then (c.output, c)
  else
    let error :=
      if c.reverse_acting then -(c.setpoint - process_value)
      else c.setpoint - process_value
    let p_term := c.kp * error
    let integral := c.integral + error * dt
    let i_term := c.ki * integral
    let last_derivative :=
      match c.last_pv with
      | some lpv =>
        let d_pv := -(process_value - lpv) / dt
        if 0 < c.derivative_filter then
          let alpha := dt / (c.derivative_filter + dt)
          alpha * d_pv + (1 - alpha) * c.last_derivative
        else d_pv
      | none => 0
    let d_term := c.kd * last_derivative
    let output := p_term + i_term + d_term
    let clamped_output := max c.out_min (min c.out_max output)
    let integral2 :=
      if c.anti_windup ∧ c.ki ≠ 0 ∧ output ≠ clamped_output then
        (clamped_output - p_term - d_term) / c.ki
      else integral
    (clamped_output,
      { c with
        integral := integral2
        last_error := some error
        last_derivative := last_derivative
        last_pv := some process_value
        output := clamped_output })

/-- The error term of PIDController.compute (reverse-acting negates it). -/
def pid_error (c : PIDState) (pv : ℚ) : ℚ :=
  if c.reverse_acting then -(c.setpoint - pv) else c.setpoint - pv

/-- The filtered derivative-on-PV term of PIDController.compute, as it
stands after the call. -/
def pid_derivative (c : PIDState) (pv dt : ℚ) : ℚ :=
  match c.last_pv with
  | some lpv =>
    let d_pv := -(pv - lpv) / dt
    if 0 < c.derivative_filter then
      dt / (c.derivative_filter + dt) * d_pv +
        (1 - dt / (c.derivative_filter + dt)) * c.last_derivative
    else d_pv
  | none => 0

/-- The raw (unclamped) PID output Kp·e + Ki·(integral + e·dt) + Kd·d. -/
def pid_raw_output (c : PIDState) (pv dt : ℚ) : ℚ :=
  c.kp * pid_error c pv + c.ki * (c.integral + pid_error c pv * dt) +
    c.kd * pid_derivative c pv dt

/-- A concrete PID controller state used to instantiate the theorems. -/
def pid_example : PIDState :=
  { kp := 1, ki := 0, kd := 0, setpoint := 100, out_min := 0, out_max := 1
    anti_windup := true, derivative_filter := 1 / 10, reverse_acting := false
    integral := 0, last_error := none, last_derivative := 0, last_pv := none
    output := 0 }

/-- A concrete PID controller state with integral action and saturation,
used to instantiate the anti-windup part of the theorems. -/
def pid_example_windup : PIDState :=
  { kp := 1, ki := 1 / 2, kd := 0, setpoint := 100, out_min := 0, out_max := 1
    anti_windup := true, derivative_filter := 1 / 10, reverse_acting := false
    integral := 0, last_error := none, last_derivative := 0, last_pv := none
    output := 0 }

/-! ## Staged controller (controllers/staged.py), over ℚ.
The constructor sorts the stage list by threshold; the embedding takes the
already-sorted list. -/

structure StagedState where
  stages : List (ℚ × ℚ)
  hysteresis : ℚ
  current_stage : ℤ
  output : ℚ
  deriving Repr, DecidableEq

/-- The stage-selection loop of StagedController.compute: for each stage i
(in list order), the falling-edge threshold is lowered by the hysteresis
when the current stage is at or above i; the last stage whose effective
threshold the process value reaches wins. -/
def staged_scan (pv hyst : ℚ) (cur : ℤ) :
    List (ℚ × ℚ) → ℤ → ℤ → ℤ
  | [], _, acc => acc
  | stage :: rest, i, acc =>
    let eff := if i ≤ cur then stage.1 - hyst else stage.1
    let acc2 := if eff ≤ pv then i else acc
    staged_scan pv hyst cur rest (i + 1) acc2

/-- StagedController.compute(process_value, dt); dt is unused by the code. -/
def staged_compute (c : StagedState) (pv : ℚ) : ℚ × StagedState :=
  if c.stages = [] then (0, c)
  else
    let new_stage := staged_scan pv c.hysteresis c.current_stage c.stages 0 (-1)
    let out :=
      if 0 ≤ new_stage then (c.stages.getD new_stage.toNat (0, 0)).2 else 0
    (out, { c with current_stage := new_stage, output := out })

/-! ## Schedule controller (controllers/schedule.py), over ℚ.
Entry times are minutes since midnight; add_entry keeps the list sorted by
time, and the embedding takes the already-sorted list. -/

structure ScheduleEntry where
  minutes : ℕ
  value : ℚ
  deriving Repr, DecidableEq

/-- The entry-scanning loop of get_scheduled_value: prev becomes the last
entry at or before the current time, next the first entry strictly after. -/
def schedule_scan (cur : ℕ) :
    List ScheduleEntry → Option ScheduleEntry → Option ScheduleEntry →
      Option ScheduleEntry × Option ScheduleEntry
  | [], prev, nxt => (prev, nxt)
  | e :: rest, prev, nxt =>
    let prev2 := if e.minutes ≤ cur then some e else prev
    let nxt2 := if cur < e.minutes ∧ nxt = none then some e else nxt
    schedule_scan cur rest prev2 nxt2

/-- ScheduleController.get_scheduled_value with midnight wrap-around and
optional linear interpolation by minutes since midnight. -/
def get_scheduled_value (entries : List ScheduleEntry) (interpolate : Bool)
    (default_value : ℚ) (cur : ℕ) : ℚ :=
  if entries = [] then default_value
  else
    let scanned := schedule_scan cur entries none none
    let prev := scanned.1.getD (entries.getLastD ⟨0, 0⟩)
    let next_e := scanned.2.getD (entries.headD ⟨0, 0⟩)
    if !interpolate then prev.value
    else
      let prev_minutes : ℤ := prev.minutes
      let next_minutes0 : ℤ := next_e.minutes
      let cur0 : ℤ := cur
      let next_minutes :=
        if next_minutes0 < prev_minutes then next_minutes0 + 24 * 60
        else next_minutes0
      let cur_minutes :=
        if cur0 < prev_minutes then cur0 + 24 * 60 else cur0
      if next_minutes = prev_minutes then prev.value
      else
        let fraction : ℚ :=
          ((cur_minutes - prev_minutes : ℤ) : ℚ) /
            ((next_minutes - prev_minutes : ℤ) : ℚ)
        prev.value + fraction * (next_e.value - prev.value)

/-- The staged controller of claim C3: stages (25, 0.33), (27, 0.66),
(29, 1.0), hysteresis 1.0, starting with no active stage. -/
def staged_c3_init : StagedState :=
  { stages := [(25, 33 / 100), (27, 66 / 100), (29, 1)]
    hysteresis := 1, current_stage := -1, output := 0 }

/-- Zero actuator totals: no ventilation, heating, cooling, humidification
or CO2 injection. -/
noncomputable def totals_zero : ActuatorTotals :=
  { ventilation_rate := 0, heating := 0, cooling := 0, humidity_addition := 0
    co2_injection := 0 }

/-- A concrete weather reading (10 °C, 0 % RH, standard pressure, no sun,
light wind) used to instantiate the engine theorems. -/
noncomputable def weather_example : WeatherConditions :=
  { temperature := 10, humidity := 0, pressure := 101325
    solar_radiation := 0, wind_speed := 1, wind_direction := 180 }

/-- A concrete weather reading whose temperature matches the interior of
`state_example` (20 °C), with zero solar radiation. -/
noncomputable def weather_matched : WeatherConditions :=
  { temperature := 20, humidity := 0, pressure := 101325
    solar_radiation := 0, wind_speed := 0, wind_direction := 0 }

/-- A concrete greenhouse state (default 30 m × 10 m gable geometry,
double-polyethylene covering) used to instantiate the engine theorems. -/
noncomputable def state_example : GreenhouseState :=
  { time := 0
    interior := { temperature := 20, humidity := 0, pressure := 101325, co2_ppm := 400 }
    exterior := { temperature := 10, humidity := 0, pressure := 101325, co2_ppm := 420 }
    solar_radiation := 0, wind_speed := 0, wind_direction := 0
    location := { latitude := 37.3, longitude := -78.4, elevation := 0 }
    geometry := { length := 30, width := 10, height_ridge := 5, height_eave := 3 }
    covering := { transmittance_solar := 0.77, transmittance_par := 0.75
                  transmittance_thermal := 0.05, u_value := 4, reflectance_solar := 0.13 } }

end CloudGrow

namespace CloudGrow

/-! # Theorems -/

/-- C9: dew_point(T, RH) returns the absolute-zero sentinel -273.15 when
RH = 0; it fails (ValueError, embedded as none) exactly when RH < 0 or
RH > 100; and for 0 < RH ≤ 100 it returns the closed-form Magnus-Tetens
value without failing. -/
theorem dew_point_sentinel_error_and_value :
    ∀ t rh : ℝ,
      (rh = 0 → dew_point t rh = some (-273.15)) ∧
      (dew_point t rh = none ↔ rh < 0 ∨ 100 < rh) ∧
      (0 < rh → rh ≤ 100 → dew_point t rh = some (magnus_dew_point t rh)) := by
  intro t rh
  refine ⟨fun h0 => by simp [dew_point, h0], ?_, fun h1 h2 => by simp [dew_point, h1, h2]⟩
  unfold dew_point
  split_ifs with h1 h2
  · simp only [reduceCtorEq, false_iff]
    push_neg
    exact ⟨by linarith [h1.1], by linarith [h1.2]⟩
  · simp only [reduceCtorEq, false_iff]
    push_neg
    subst h2
    norm_num
  · simp only [true_iff]
    rcases not_and_or.mp h1 with h | h
    · left
      rcases lt_or_eq_of_le (not_lt.mp h) with h' | h'
      · exact h'
      · exact absurd h' h2
    · right
      exact not_le.mp h

/-- C7: with interpolation enabled, entries (6:00, 18) and (8:00, 24) give
21 at 7:00; entries (6:00, 20) and (22:00, 16) give 17 at midnight, where
the previous entry is yesterday's 22:00 and the wrap-around correction adds
24 h to the query and to the next entry. -/
theorem schedule_interpolation_examples :
    get_scheduled_value [⟨360, 18⟩, ⟨480, 24⟩] true 20 420 = 21 ∧
    get_scheduled_value [⟨360, 20⟩, ⟨1320, 16⟩] true 20 0 = 17 := by
  constructor <;> · simp [get_scheduled_value, schedule_scan]; norm_num

/-- C10: PIDController.compute with dt ≤ 0 returns the stored output and
leaves the whole controller state (integral, last error, filtered
derivative, last process value, setpoint, output) unchanged. -/
theorem pid_compute_nonpositive_dt_is_noop :
    ∀ (c : PIDState) (pv dt : ℚ), dt ≤ 0 → pid_compute c pv dt = (c.output, c) := by
  intro c pv dt h
  simp [pid_compute, h]

/-- C10 witness: the no-op theorem instantiated at a concrete controller
state, process value 25 and dt = 0. -/
theorem pid_compute_nonpositive_dt_is_noop_witness :
    pid_compute pid_example_windup 25 0 = (pid_example_windup.output, pid_example_windup) :=
  pid_compute_nonpositive_dt_is_noop pid_example_windup 25 0 (le_refl 0)

/-- Rising to process value 30 from no active stage selects stage 2. -/
theorem staged_c3_step1 :
    staged_compute staged_c3_init 30 =
      (1, { stages := [(25, 33 / 100), (27, 66 / 100), (29, 1)]
            hysteresis := 1, current_stage := 2, output := 1 }) := by
  norm_num [staged_compute, staged_scan, staged_c3_init, List.getD_cons_succ,
    List.getD_cons_zero, Int.toNat_ofNat, List.cons_ne_nil, Prod.ext_iff,
    StagedState.mk.injEq]
  try rfl

/-- Falling to 29.3 from stage 2 stays at stage 2: 29.3 is still at or
above the lowered threshold 29 - 1 = 28. -/
theorem staged_c3_step2 :
    staged_compute
      { stages := [(25, 33 / 100), (27, 66 / 100), (29, 1)]
        hysteresis := 1, current_stage := 2, output := 1 } (293 / 10) =
      (1, { stages := [(25, 33 / 100), (27, 66 / 100), (29, 1)]
            hysteresis := 1, current_stage := 2, output := 1 }) := by
  norm_num [staged_compute, staged_scan, List.getD_cons_succ,
    List.getD_cons_zero, Int.toNat_ofNat, List.cons_ne_nil, Prod.ext_iff,
    StagedState.mk.injEq]
  try rfl

/-- Falling to 27.3 from stage 2 drops to stage 1: 27.3 is below 28 but at
or above the lowered threshold 27 - 1 = 26. -/
theorem staged_c3_step3 :
    staged_compute
      { stages := [(25, 33 / 100), (27, 66 / 100), (29, 1)]
        hysteresis := 1, current_stage := 2, output := 1 } (273 / 10) =
      (66 / 100, { stages := [(25, 33 / 100), (27, 66 / 100), (29, 1)]
                   hysteresis := 1, current_stage := 1, output := 66 / 100 }) := by
  norm_num [staged_compute, staged_scan, List.getD_cons_succ,
    List.getD_cons_zero, Int.toNat_ofNat, List.cons_ne_nil, Prod.ext_iff,
    StagedState.mk.injEq]
  try rfl

/-- C3 counterexample: with stages (25, 0.33), (27, 0.66), (29, 1.0) and
hysteresis 1.0, after rising to 30 (stage 2), a compute at 29.3 stays at
stage 2 with output 1.0 (29.3 is above the lowered threshold 29 - 1 = 28),
not at stage 1 with output 0.66 as claimed. -/
theorem staged_falling_29_3_stays_stage_2 :
    (staged_compute (staged_compute staged_c3_init 30).2 (293 / 10)).2.current_stage = 2 ∧
    (staged_compute (staged_compute staged_c3_init 30).2 (293 / 10)).1 = 1 := by
  simp only [staged_c3_step1, staged_c3_step2]
  refine ⟨?_, ?_⟩ <;> trivial

/-- C3 (amended): rising to 30 gives stage 2 with output 1.0; falling to
29.3 stays at stage 2 with output 1.0 (above the lowered threshold 28);
falling to 27.3 then drops to stage 1 with output 0.66 (above the lowered
threshold 26 but below 28). -/
theorem staged_hysteresis_sequence :
    (staged_compute staged_c3_init 30).1 = 1 ∧
    (staged_compute staged_c3_init 30).2.current_stage = 2 ∧
    (staged_compute (staged_compute staged_c3_init 30).2 (293 / 10)).1 = 1 ∧
    (staged_compute (staged_compute staged_c3_init 30).2 (293 / 10)).2.current_stage = 2 ∧
    (staged_compute (staged_compute (staged_compute staged_c3_init 30).2
        (293 / 10)).2 (273 / 10)).1 = 66 / 100 ∧
    (staged_compute (staged_compute (staged_compute staged_c3_init 30).2
        (293 / 10)).2 (273 / 10)).2.current_stage = 1 := by
  simp only [staged_c3_step1, staged_c3_step2, staged_c3_step3]
  refine ⟨?_, ?_, ?_, ?_, ?_, ?_⟩ <;> trivial


/-- PIDController.compute for dt > 0, written out: the returned output is
the clamped raw output, and the state update stores the back-calculated
integral exactly when anti-windup is on, Ki is nonzero and the raw output
was clamped. -/
theorem pid_compute_pos (c : PIDState) (pv dt : ℚ) (h : 0 < dt) :
    pid_compute c pv dt =
      (max c.out_min (min c.out_max (pid_raw_output c pv dt)),
       { c with
         integral :=
           if c.anti_windup ∧ c.ki ≠ 0 ∧
               pid_raw_output c pv dt ≠
                 max c.out_min (min c.out_max (pid_raw_output c pv dt)) then
             (max c.out_min (min c.out_max (pid_raw_output c pv dt)) -
               c.kp * pid_error c pv - c.kd * pid_derivative c pv dt) / c.ki
           else c.integral + pid_error c pv * dt
         last_error := some (pid_error c pv)
         last_derivative := pid_derivative c pv dt
         last_pv := some pv
         output := max c.out_min (min c.out_max (pid_raw_output c pv dt)) }) := by
  obtain ⟨kp, ki, kd, sp, omin, omax, aw, df, ra, integ, lerr, lder, lpv, out⟩ := c
  have hnd : ¬ dt ≤ 0 := not_le.mpr h
  cases lpv <;>
    simp only [pid_compute, pid_raw_output, pid_error, pid_derivative,
      if_neg hnd]

/-- C4: for dt > 0, PIDController.compute returns Kp·e + Ki·integral + Kd·d
clamped to the output limits (with the integral already accumulated and the
derivative filtered); with Kp=1, Ki=Kd=0, setpoint=100, compute(90, dt)
returns the upper limit whenever it is below 10; and when the raw output was
clamped, anti-windup is on and Ki ≠ 0, the stored integral is reassigned to
(clamped − P − D)/Ki, so that P + Ki·integral + D equals the clamped output. -/
theorem pid_compute_clamp_and_anti_windup :
    ∀ (c : PIDState) (pv dt : ℚ), 0 < dt →
      ((pid_compute c pv dt).1 =
        max c.out_min (min c.out_max (pid_raw_output c pv dt))) ∧
      (c.anti_windup = true → c.ki ≠ 0 →
        pid_raw_output c pv dt ≠ (pid_compute c pv dt).1 →
        c.kp * pid_error c pv + c.ki * (pid_compute c pv dt).2.integral +
          c.kd * pid_derivative c pv dt = (pid_compute c pv dt).1) ∧
      (c.kp = 1 → c.ki = 0 → c.kd = 0 → c.setpoint = 100 →
        c.reverse_acting = false → c.out_min ≤ c.out_max → c.out_max < 10 →
        (pid_compute c 90 dt).1 = c.out_max) := by
  intro c pv dt h
  refine ⟨?_, ?_, ?_⟩
  · rw [pid_compute_pos c pv dt h]
  · intro haw hki hne
    rw [pid_compute_pos c pv dt h] at hne ⊢
    simp only at hne ⊢
    rw [if_pos ⟨by simp [haw], hki, hne⟩]
    field_simp
    ring
  · intro h1 h2 h3 h4 h5 h6 h7
    rw [pid_compute_pos c 90 dt h]
    simp only [pid_raw_output, pid_error, h1, h2, h3, h4, h5]
    norm_num
    rw [min_eq_left (by linarith), max_eq_right h6]

/-- C4 witness: the theorem applied to a concrete controller with Kp=1,
Ki=Kd=0, setpoint 100, output limits (0, 1): compute(90, 0.1) returns the
upper limit 1. -/
theorem pid_compute_clamp_and_anti_windup_witness :
    (pid_compute pid_example 90 (1 / 10)).1 = pid_example.out_max :=
  (pid_compute_clamp_and_anti_windup pid_example 90 (1 / 10) (by norm_num)).2.2
    rfl rfl rfl rfl rfl (by norm_num [pid_example]) (by norm_num [pid_example])

/-! ## Engine helper lemmas -/

/-- saturation_pressure succeeds, with a positive value, exactly on the
Hyland-Wexler validity range [-100, 200]. -/
theorem saturation_pressure_some (t : ℝ) (h1 : -100 ≤ t) (h2 : t ≤ 200) :
    ∃ y, saturation_pressure t = some y ∧ 0 < y := by
  unfold saturation_pressure
  by_cases h : t < 0
  · rw [if_pos h, if_neg (not_lt.mpr h1)]
    exact ⟨_, rfl, Real.exp_pos _⟩
  · rw [if_neg h, if_neg (not_lt.mpr h2)]
    exact ⟨_, rfl, Real.exp_pos _⟩

/-- humidity_ratio at zero relative humidity is zero (for a positive total
pressure and an in-range temperature). -/
theorem humidity_ratio_zero_rh (t p : ℝ) (h1 : -100 ≤ t) (h2 : t ≤ 200)
    (hp : 0 < p) : humidity_ratio t 0 p = some 0 := by
  obtain ⟨y, hy, hypos⟩ := saturation_pressure_some t h1 h2
  unfold humidity_ratio
  rw [if_neg (by norm_num), hy]
  simp only [zero_div, zero_mul, sub_zero]
  rw [if_neg (not_le.mpr hp)]
  norm_num

/-- relative_humidity succeeds for any in-range temperature. -/
theorem relative_humidity_some (t w p : ℝ) (h1 : -100 ≤ t) (h2 : t ≤ 200) :
    ∃ r, relative_humidity t w p = some r := by
  obtain ⟨y, hy, _⟩ := saturation_pressure_some t h1 h2
  unfold relative_humidity
  rw [hy]
  exact ⟨_, rfl⟩

/-- The result of _apply_temperature_change always lies in the AirState
validity range [-50, 60]. -/
theorem apply_temperature_change_mem (dt : ℝ) (s : GreenhouseState) (q : ℝ) :
    -50 ≤ apply_temperature_change dt s q ∧ apply_temperature_change dt s q ≤ 60 := by
  unfold apply_temperature_change
  dsimp only
  exact ⟨le_max_left _ _, max_le (by norm_num) (min_le_left _ _)⟩

/-- The rate limiter: for dt ≥ 0 and an in-range starting temperature, the
temperature moves by at most MAX_TEMP_CHANGE_RATE * dt. -/
theorem apply_temperature_change_rate (dt : ℝ) (s : GreenhouseState) (q : ℝ)
    (hdt : 0 ≤ dt) (hlo : -50 ≤ s.interior.temperature)
    (hhi : s.interior.temperature ≤ 60) :
    |apply_temperature_change dt s q - s.interior.temperature| ≤
      MAX_TEMP_CHANGE_RATE * dt := by
  unfold apply_temperature_change MAX_TEMP_CHANGE_RATE
  set t := s.interior.temperature with ht
  set x := q * dt / (volume s.geometry * STANDARD_AIR_DENSITY * C_P_DRY_AIR) with hx
  set m : ℝ := 0.1 * dt with hm
  have hm0 : 0 ≤ m := by rw [hm]; positivity
  set d := max (-m) (min m x) with hd
  have hd1 : d ≤ m := max_le (by linarith) (min_le_left _ _)
  have hd2 : -m ≤ d := le_max_left _ _
  have hub : max (-50 : ℝ) (min 60 (t + d)) ≤ t + m :=
    max_le (by linarith) (le_trans (min_le_right _ _) (by linarith))
  have hlb : t - m ≤ max (-50 : ℝ) (min 60 (t + d)) :=
    le_trans (le_min (by linarith) (by linarith)) (le_max_right _ _)
  rw [abs_le]
  constructor <;> [linarith; linarith]

/-- The CO2 balance result is always within [200, 5000]. -/
theorem calculate_co2_balance_mem (dt : ℝ) (s : GreenhouseState)
    (totals : ActuatorTotals) :
    200 ≤ calculate_co2_balance dt s totals ∧
      calculate_co2_balance dt s totals ≤ 5000 := by
  unfold calculate_co2_balance
  dsimp only
  exact ⟨le_max_left _ _, max_le (by norm_num) (min_le_left _ _)⟩

/-- Whatever the moisture balance returns is within [10, 100]. -/
theorem calculate_moisture_balance_mem (dt : ℝ) (s : GreenhouseState)
    (totals : ActuatorTotals) (new_temp r : ℝ)
    (h : calculate_moisture_balance dt s totals new_temp = some r) :
    10 ≤ r ∧ r ≤ 100 := by
  unfold calculate_moisture_balance at h
  split at h
  · dsimp only at h
    split at h
    · exact absurd h (by simp)
    · next new_rh heq =>
      have hr : r = max 10 (min 100 new_rh) := (Option.some_injective _ h).symm
      subst hr
      exact ⟨le_max_left _ _, max_le (by norm_num) (min_le_left _ _)⟩
  · exact absurd h (by simp)

/-- Destructuring a successful _calculate_physics call: it succeeds exactly
through a successful heat balance and moisture balance, and the result is
the reconstructed state. -/
theorem calculate_physics_eq_some (dt now : ℝ) (s : GreenhouseState)
    (totals : ActuatorTotals) (s' : GreenhouseState)
    (h : calculate_physics dt now s totals = some s') :
    ∃ q r, calculate_heat_balance s totals = some q ∧
      calculate_moisture_balance dt s totals (apply_temperature_change dt s q) = some r ∧
      s' = update_interior_state now s (apply_temperature_change dt s q) r
        (calculate_co2_balance dt s totals) := by
  unfold calculate_physics at h
  split at h
  · exact absurd h (by simp)
  · next q hq =>
    dsimp only at h
    split at h
    · exact absurd h (by simp)
    · next r hr =>
      exact ⟨q, r, hq, hr, (Option.some_injective _ h).symm⟩

/-- _calculate_physics succeeds whenever the exterior dew point and the two
humidity-ratio conversions succeed (the reconstruction itself is total, and
the new-temperature RH conversion is valid because the temperature was
clamped to [-50, 60]). -/
theorem calculate_physics_isSome (dt now : ℝ) (s : GreenhouseState)
    (totals : ActuatorTotals)
    (h1 : (dew_point s.exterior.temperature s.exterior.humidity).isSome)
    (h2 : (humidity_ratio s.interior.temperature s.interior.humidity
            STANDARD_PRESSURE).isSome)
    (h3 : (humidity_ratio s.exterior.temperature s.exterior.humidity
            STANDARD_PRESSURE).isSome) :
    (calculate_physics dt now s totals).isSome := by
  obtain ⟨d, hd⟩ := Option.isSome_iff_exists.mp h1
  obtain ⟨wi, hwi⟩ := Option.isSome_iff_exists.mp h2
  obtain ⟨we, hwe⟩ := Option.isSome_iff_exists.mp h3
  have hsky : ∃ y, sky_temperature s.exterior.temperature s.exterior.humidity
      0.3 = some y := by
    unfold sky_temperature
    rw [hd]
    exact ⟨_, rfl⟩
  obtain ⟨tsky, htsky⟩ := hsky
  have hheat : ∃ q, calculate_heat_balance s totals = some q := by
    unfold calculate_heat_balance
    rw [htsky]
    exact ⟨_, rfl⟩
  obtain ⟨q, hq⟩ := hheat
  have hmem := apply_temperature_change_mem dt s q
  obtain ⟨r0, hr0⟩ := relative_humidity_some (apply_temperature_change dt s q)
    (max 0.001 (wi + (totals.ventilation_rate * STANDARD_AIR_DENSITY * (we - wi) +
      totals.humidity_addition) * dt / (volume s.geometry * STANDARD_AIR_DENSITY)))
    STANDARD_PRESSURE (by linarith [hmem.1]) (by linarith [hmem.2])
  have hmoist : ∃ r, calculate_moisture_balance dt s totals
      (apply_temperature_change dt s q) = some r := by
    unfold calculate_moisture_balance
    rw [hwi, hwe]
    dsimp only
    rw [hr0]
    exact ⟨_, rfl⟩
  obtain ⟨r, hr⟩ := hmoist
  unfold calculate_physics
  rw [hq]
  dsimp only
  rw [hr]
  rfl

/-- The interior air state of `state_example` after the exterior update. -/
theorem update_exterior_example_interior :
    ∀ (now : ℝ) (w : WeatherConditions),
      (update_exterior_conditions now w state_example).interior.temperature = 20 ∧
      (update_exterior_conditions now w state_example).interior.humidity = 0 := by
  intro now w
  exact ⟨rfl, rfl⟩

/-- The concrete engine step of the witnesses succeeds: weather at 0 % RH
makes the dew point the sentinel and both humidity ratios zero. -/
theorem engine_step_example_isSome :
    (engine_step 60 0 weather_example totals_zero state_example).isSome := by
  unfold engine_step
  apply calculate_physics_isSome
  · rw [show (update_exterior_conditions 0 weather_example
        state_example).exterior.humidity = 0 from rfl]
    rw [show (update_exterior_conditions 0 weather_example
        state_example).exterior.temperature = 10 from rfl]
    unfold dew_point
    rw [if_neg (by norm_num), if_pos rfl]
    rfl
  · rw [show (update_exterior_conditions 0 weather_example
        state_example).interior.humidity = 0 from rfl]
    rw [show (update_exterior_conditions 0 weather_example
        state_example).interior.temperature = 20 from rfl]
    rw [humidity_ratio_zero_rh 20 STANDARD_PRESSURE (by norm_num) (by norm_num)
      (by unfold STANDARD_PRESSURE; norm_num)]
    rfl
  · rw [show (update_exterior_conditions 0 weather_example
        state_example).exterior.humidity = 0 from rfl]
    rw [show (update_exterior_conditions 0 weather_example
        state_example).exterior.temperature = 10 from rfl]
    rw [humidity_ratio_zero_rh 10 STANDARD_PRESSURE (by norm_num) (by norm_num)
      (by unfold STANDARD_PRESSURE; norm_num)]
    rfl

/-- C8: the physics update at the end of step() changes only the interior
temperature, humidity and CO2: the interior pressure, the exterior air
state, the location, geometry, covering, solar radiation, wind speed and
wind direction of the reconstructed state all equal their values right
after the step's exterior weather update. -/
theorem engine_step_frame :
    ∀ (dt now : ℝ) (w : WeatherConditions) (totals : ActuatorTotals)
      (s s' : GreenhouseState),
      engine_step dt now w totals s = some s' →
      s'.interior.pressure =
          (update_exterior_conditions now w s).interior.pressure ∧
      s'.exterior = (update_exterior_conditions now w s).exterior ∧
      s'.location = (update_exterior_conditions now w s).location ∧
      s'.geometry = (update_exterior_conditions now w s).geometry ∧
      s'.covering = (update_exterior_conditions now w s).covering ∧
      s'.solar_radiation =
          (update_exterior_conditions now w s).solar_radiation ∧
      s'.wind_speed = (update_exterior_conditions now w s).wind_speed ∧
      s'.wind_direction = (update_exterior_conditions now w s).wind_direction := by
  intro dt now w totals s s' h
  obtain ⟨q, r, hq, hr, hs'⟩ := calculate_physics_eq_some dt now
    (update_exterior_conditions now w s) totals s' h
  subst hs'
  exact ⟨rfl, rfl, rfl, rfl, rfl, rfl, rfl, rfl⟩

/-- C8 witness: the frame property at the concrete engine step of
`engine_step_example_isSome`. -/
theorem engine_step_frame_witness :
    (engine_step 60 0 weather_example totals_zero state_example).elim False
      (fun s' =>
        s'.interior.pressure =
            (update_exterior_conditions 0 weather_example
              state_example).interior.pressure ∧
        s'.exterior = (update_exterior_conditions 0 weather_example
            state_example).exterior ∧
        s'.location = (update_exterior_conditions 0 weather_example
            state_example).location ∧
        s'.geometry = (update_exterior_conditions 0 weather_example
            state_example).geometry ∧
        s'.covering = (update_exterior_conditions 0 weather_example
            state_example).covering ∧
        s'.solar_radiation = (update_exterior_conditions 0 weather_example
            state_example).solar_radiation ∧
        s'.wind_speed = (update_exterior_conditions 0 weather_example
            state_example).wind_speed ∧
        s'.wind_direction = (update_exterior_conditions 0 weather_example
            state_example).wind_direction) := by
  obtain ⟨s', hs'⟩ :=
    Option.isSome_iff_exists.mp engine_step_example_isSome
  rw [hs']
  exact engine_step_frame 60 0 weather_example totals_zero state_example s' hs'

/-- C1: for any step with dt ≥ 0 from a state whose interior temperature is
in the AirState range, the interior temperature changes by at most
MAX_TEMP_CHANGE_RATE·dt (0.1 °C/s), and the resulting interior state has
temperature within [-50, 60] °C, CO2 within [200, 5000] ppm and relative
humidity within [10, 100] %. -/
theorem engine_step_rate_limit_and_ranges :
    ∀ (dt now : ℝ) (w : WeatherConditions) (totals : ActuatorTotals)
      (s s' : GreenhouseState),
      0 ≤ dt → -50 ≤ s.interior.temperature → s.interior.temperature ≤ 60 →
      engine_step dt now w totals s = some s' →
      |s'.interior.temperature - s.interior.temperature| ≤
          MAX_TEMP_CHANGE_RATE * dt ∧
      (-50 ≤ s'.interior.temperature ∧ s'.interior.temperature ≤ 60) ∧
      (200 ≤ s'.interior.co2_ppm ∧ s'.interior.co2_ppm ≤ 5000) ∧
      (10 ≤ s'.interior.humidity ∧ s'.interior.humidity ≤ 100) := by
  intro dt now w totals s s' hdt hlo hhi h
  obtain ⟨q, r, hq, hr, hs'⟩ := calculate_physics_eq_some dt now
    (update_exterior_conditions now w s) totals s' h
  have hint : (update_exterior_conditions now w s).interior = s.interior := rfl
  subst hs'
  refine ⟨?_, ?_, ?_, ?_⟩
  · have := apply_temperature_change_rate dt (update_exterior_conditions now w s)
      q hdt (by rw [hint]; exact hlo) (by rw [hint]; exact hhi)
    rw [hint] at this
    exact this
  · exact apply_temperature_change_mem dt _ q
  · exact calculate_co2_balance_mem dt _ totals
  · exact calculate_moisture_balance_mem dt _ totals _ r hr

/-- C1 witness: the rate-limit and range conclusions at the concrete
engine step of `engine_step_example_isSome` (dt = 60 s). -/
theorem engine_step_rate_limit_and_ranges_witness :
    (engine_step 60 0 weather_example totals_zero state_example).elim False
      (fun s' =>
        |s'.interior.temperature - state_example.interior.temperature| ≤
            MAX_TEMP_CHANGE_RATE * 60 ∧
        (-50 ≤ s'.interior.temperature ∧ s'.interior.temperature ≤ 60) ∧
        (200 ≤ s'.interior.co2_ppm ∧ s'.interior.co2_ppm ≤ 5000) ∧
        (10 ≤ s'.interior.humidity ∧ s'.interior.humidity ≤ 100)) := by
  obtain ⟨s', hs'⟩ :=
    Option.isSome_iff_exists.mp engine_step_example_isSome
  rw [hs']
  exact engine_step_rate_limit_and_ranges 60 0 weather_example totals_zero
    state_example s' (by norm_num)
    (by rw [show state_example.interior.temperature = 20 from rfl]; norm_num)
    (by rw [show state_example.interior.temperature = 20 from rfl]; norm_num)
    hs'

/-- Destructuring a successful _calculate_heat_balance call: the dew point
succeeded and the net flux is the written-out balance, with the sky
temperature expanded (Berdahl-Fromberg emissivity from the dew point d,
clamped, blended with cloud cover 0.3). -/
theorem calculate_heat_balance_eq_some (s : GreenhouseState)
    (totals : ActuatorTotals) (q : ℝ)
    (h : calculate_heat_balance s totals = some q) :
    ∃ d, dew_point s.exterior.temperature s.exterior.humidity = some d ∧
      q = s.solar_radiation * s.covering.transmittance_solar *
            floor_area s.geometry
        + totals.heating
        - conduction_heat_transfer s.covering.u_value
            (wall_area s.geometry + roof_area s.geometry)
            s.interior.temperature s.exterior.temperature
        - totals.ventilation_rate * STANDARD_AIR_DENSITY * C_P_DRY_AIR *
            (s.interior.temperature - s.exterior.temperature)
        - GREENHOUSE_EFFECTIVE_EMISSIVITY * STEFAN_BOLTZMANN *
            roof_area s.geometry *
            ((s.interior.temperature + 273.15) ^ 4 -
              ((s.exterior.temperature + 273.15) *
                  (max 0 (min 1 (0.741 + 0.0062 * d)) +
                    0.3 * (1 - max 0 (min 1 (0.741 + 0.0062 * d)))) ^ (0.25 : ℝ)
                - 273.15 + 273.15) ^ 4)
        - totals.cooling := by
  unfold calculate_heat_balance at h
  split at h
  · exact absurd h (by simp)
  · next tsky hsky =>
    have hq := Option.some_inj.mp h
    unfold sky_temperature at hsky
    split at hsky
    · exact absurd hsky (by simp)
    · next d hd =>
      have ht := Option.some_inj.mp hsky
      refine ⟨d, hd, ?_⟩
      rw [← hq, ← ht]

/-- The sky radiation term is nonnegative: the blended emissivity lies in
[0, 1], so the effective sky temperature is at most the ambient Kelvin
temperature. -/
theorem sky_radiation_term_nonneg (t d A : ℝ) (ht : -273.15 ≤ t)
    (hA : 0 ≤ A) :
    0 ≤ GREENHOUSE_EFFECTIVE_EMISSIVITY * STEFAN_BOLTZMANN * A *
      ((t + 273.15) ^ 4 -
        ((t + 273.15) *
            (max 0 (min 1 (0.741 + 0.0062 * d)) +
              0.3 * (1 - max 0 (min 1 (0.741 + 0.0062 * d)))) ^ (0.25 : ℝ)
          - 273.15 + 273.15) ^ 4) := by
  set e := max 0 (min 1 (0.741 + 0.0062 * d)) with he
  have he0 : 0 ≤ e := le_max_left _ _
  have he1 : e ≤ 1 := max_le (by norm_num) (min_le_left _ _)
  set es := e + 0.3 * (1 - e) with hes
  have hes0 : 0 ≤ es := by rw [hes]; nlinarith
  have hes1 : es ≤ 1 := by rw [hes]; nlinarith
  have hf0 : 0 ≤ es ^ (0.25 : ℝ) := Real.rpow_nonneg hes0 _
  have hf1 : es ^ (0.25 : ℝ) ≤ 1 := Real.rpow_le_one hes0 hes1 (by norm_num)
  have htk : 0 ≤ t + 273.15 := by linarith
  have hmul0 : 0 ≤ (t + 273.15) * es ^ (0.25 : ℝ) := mul_nonneg htk hf0
  have hmul1 : (t + 273.15) * es ^ (0.25 : ℝ) ≤ t + 273.15 := by nlinarith
  have hpow : ((t + 273.15) * es ^ (0.25 : ℝ) - 273.15 + 273.15) ^ 4 ≤
      (t + 273.15) ^ 4 := by
    rw [sub_add_cancel]
    exact pow_le_pow_left₀ hmul0 hmul1 4
  have hsigma : (0 : ℝ) ≤ GREENHOUSE_EFFECTIVE_EMISSIVITY * STEFAN_BOLTZMANN := by
    unfold GREENHOUSE_EFFECTIVE_EMISSIVITY STEFAN_BOLTZMANN
    norm_num
  have := mul_nonneg (mul_nonneg hsigma hA) (sub_nonneg.mpr hpow)
  calc (0 : ℝ) ≤ _ := this
    _ = _ := by ring

/-- roof_area is nonnegative for a nonnegative length. -/
theorem roof_area_nonneg (g : GreenhouseGeometry) (h : 0 ≤ g.length) :
    0 ≤ roof_area g := by
  unfold roof_area
  have : (0 : ℝ) ≤ ((g.width / 2) ^ 2 +
      (g.height_ridge - g.height_eave) ^ 2) ^ (0.5 : ℝ) :=
    Real.rpow_nonneg (by positivity) _
  nlinarith

/-- For a nonpositive net flux, dt ≥ 0 and a nonnegative volume, the
temperature after _apply_temperature_change does not exceed the starting
temperature (which must be within the AirState range). -/
theorem apply_temperature_change_nonpos (dt : ℝ) (s : GreenhouseState)
    (q : ℝ) (hdt : 0 ≤ dt) (hq : q ≤ 0) (hvol : 0 ≤ volume s.geometry)
    (hlo : -50 ≤ s.interior.temperature) :
    apply_temperature_change dt s q ≤ s.interior.temperature := by
  unfold apply_temperature_change
  dsimp only
  set t := s.interior.temperature with ht
  have hden : 0 ≤ volume s.geometry * STANDARD_AIR_DENSITY * C_P_DRY_AIR := by
    unfold STANDARD_AIR_DENSITY C_P_DRY_AIR
    positivity
  have hx : q * dt / (volume s.geometry * STANDARD_AIR_DENSITY * C_P_DRY_AIR) ≤ 0 :=
    div_nonpos_iff.mpr (Or.inr ⟨mul_nonpos_of_nonpos_of_nonneg hq hdt, hden⟩)
  have hm0 : 0 ≤ MAX_TEMP_CHANGE_RATE * dt := by
    unfold MAX_TEMP_CHANGE_RATE
    positivity
  have hd : max (-(MAX_TEMP_CHANGE_RATE * dt))
      (min (MAX_TEMP_CHANGE_RATE * dt)
        (q * dt / (volume s.geometry * STANDARD_AIR_DENSITY * C_P_DRY_AIR))) ≤ 0 :=
    max_le (by linarith) (le_trans (min_le_right _ _) hx)
  exact max_le hlo (le_trans (min_le_right _ _) (by linarith))

/-- C2 (amended): if during a step the solar radiation is zero, every
aggregated actuator total is zero, and the interior temperature equals the
exterior temperature, then the interior temperature after step() is at most
the interior temperature before step(): the sky radiation loss (effective
emissivity 0.1, cloud cover 0.3) still cools the interior, so the
temperature is unchanged only when the blended sky emissivity is exactly 1,
and otherwise strictly drops. -/
theorem engine_step_balanced_cools :
    ∀ (dt now : ℝ) (w : WeatherConditions) (totals : ActuatorTotals)
      (s s' : GreenhouseState),
      0 ≤ dt →
      w.solar_radiation = 0 →
      totals.ventilation_rate = 0 → totals.heating = 0 → totals.cooling = 0 →
      totals.humidity_addition = 0 → totals.co2_injection = 0 →
      w.temperature = s.interior.temperature →
      -50 ≤ s.interior.temperature →
      0 ≤ s.geometry.length → 0 ≤ s.geometry.width →
      0 ≤ s.geometry.height_eave → 0 ≤ s.geometry.height_ridge →
      engine_step dt now w totals s = some s' →
      s'.interior.temperature ≤ s.interior.temperature := by
  intro dt now w totals s s' hdt hsol hv hh hc hha hci htemp hlo hg1 hg2 hg3 hg4 h
  obtain ⟨q, r, hq, hr, hs'⟩ := calculate_physics_eq_some dt now
    (update_exterior_conditions now w s) totals s' h
  obtain ⟨d, hd, hqval⟩ := calculate_heat_balance_eq_some _ totals q hq
  have hint : (update_exterior_conditions now w s).interior = s.interior := rfl
  have hext : (update_exterior_conditions now w s).exterior.temperature =
      w.temperature := rfl
  have hsolar : (update_exterior_conditions now w s).solar_radiation =
      w.solar_radiation := rfl
  have hgeom : (update_exterior_conditions now w s).geometry = s.geometry := rfl
  have hqle : q ≤ 0 := by
    rw [hqval, hint, hext, hsolar, hgeom, hsol, hv, hh, hc, htemp]
    have hrad := sky_radiation_term_nonneg s.interior.temperature d
      (roof_area s.geometry) (by linarith) (roof_area_nonneg _ hg1)
    unfold conduction_heat_transfer
    nlinarith [hrad]
  have hvol : 0 ≤ volume s.geometry := by
    unfold volume
    positivity
  have := apply_temperature_change_nonpos dt
    (update_exterior_conditions now w s) q hdt hqle (by rw [hgeom]; exact hvol)
    (by rw [hint]; exact hlo)
  rw [hint] at this
  rw [hs']
  exact this

/-- The concrete matched-temperature engine step of the C2 statements
succeeds. -/
theorem engine_step_matched_isSome :
    (engine_step 60 0 weather_matched totals_zero state_example).isSome := by
  unfold engine_step
  apply calculate_physics_isSome
  · rw [show (update_exterior_conditions 0 weather_matched
        state_example).exterior.humidity = 0 from rfl]
    rw [show (update_exterior_conditions 0 weather_matched
        state_example).exterior.temperature = 20 from rfl]
    unfold dew_point
    rw [if_neg (by norm_num), if_pos rfl]
    rfl
  · rw [show (update_exterior_conditions 0 weather_matched
        state_example).interior.humidity = 0 from rfl]
    rw [show (update_exterior_conditions 0 weather_matched
        state_example).interior.temperature = 20 from rfl]
    rw [humidity_ratio_zero_rh 20 STANDARD_PRESSURE (by norm_num) (by norm_num)
      (by unfold STANDARD_PRESSURE; norm_num)]
    rfl
  · rw [show (update_exterior_conditions 0 weather_matched
        state_example).exterior.humidity = 0 from rfl]
    rw [show (update_exterior_conditions 0 weather_matched
        state_example).exterior.temperature = 20 from rfl]
    rw [humidity_ratio_zero_rh 20 STANDARD_PRESSURE (by norm_num) (by norm_num)
      (by unfold STANDARD_PRESSURE; norm_num)]
    rfl

/-- C2 witness: the amended claim at a concrete step: zero solar, zero
totals, interior and exterior both 20 °C — the temperature does not rise. -/
theorem engine_step_balanced_cools_witness :
    (engine_step 60 0 weather_matched totals_zero state_example).elim False
      (fun s' => s'.interior.temperature ≤ state_example.interior.temperature) := by
  obtain ⟨s', hs'⟩ := Option.isSome_iff_exists.mp engine_step_matched_isSome
  rw [hs']
  exact engine_step_balanced_cools 60 0 weather_matched totals_zero
    state_example s' (by norm_num) rfl rfl rfl rfl rfl rfl rfl
    (by rw [show state_example.interior.temperature = 20 from rfl]; norm_num)
    (by rw [show state_example.geometry.length = 30 from rfl]; norm_num)
    (by rw [show state_example.geometry.width = 10 from rfl]; norm_num)
    (by rw [show state_example.geometry.height_eave = 3 from rfl]; norm_num)
    (by rw [show state_example.geometry.height_ridge = 5 from rfl]; norm_num)
    hs'

/-- Strict version of _apply_temperature_change's monotonicity: for a
strictly negative net flux, positive dt and positive volume, the new
temperature is strictly below the starting one (which is ≥ -50). -/
theorem apply_temperature_change_neg (dt : ℝ) (s : GreenhouseState) (q : ℝ)
    (hdt : 0 < dt) (hq : q < 0) (hvol : 0 < volume s.geometry)
    (hlo : -50 < s.interior.temperature) :
    apply_temperature_change dt s q < s.interior.temperature := by
  unfold apply_temperature_change
  dsimp only
  set t := s.interior.temperature with ht
  have hden : 0 < volume s.geometry * STANDARD_AIR_DENSITY * C_P_DRY_AIR := by
    unfold STANDARD_AIR_DENSITY C_P_DRY_AIR
    positivity
  have hx : q * dt / (volume s.geometry * STANDARD_AIR_DENSITY * C_P_DRY_AIR) < 0 :=
    div_neg_of_neg_of_pos (mul_neg_of_neg_of_pos hq hdt) hden
  have hm0 : 0 < MAX_TEMP_CHANGE_RATE * dt := by
    unfold MAX_TEMP_CHANGE_RATE
    positivity
  have hd : max (-(MAX_TEMP_CHANGE_RATE * dt))
      (min (MAX_TEMP_CHANGE_RATE * dt)
        (q * dt / (volume s.geometry * STANDARD_AIR_DENSITY * C_P_DRY_AIR))) < 0 :=
    max_lt (by linarith) (lt_of_le_of_lt (min_le_right _ _) hx)
  exact max_lt (by linarith) (lt_of_le_of_lt (min_le_right _ _) (by linarith))

/-- C2 counterexample: at the concrete step with zero solar radiation, zero
actuator totals and interior = exterior = 20 °C, the interior temperature
after step() is strictly below 20 °C (the sky radiation term is strictly
positive, since at 0 % exterior RH the blended sky emissivity is 0.3), so
it does not equal the temperature before the step. -/
theorem engine_step_balanced_temperature_drops :
    (engine_step 60 0 weather_matched totals_zero state_example).elim False
      (fun s' => s'.interior.temperature < state_example.interior.temperature) := by
  obtain ⟨s', hs'⟩ := Option.isSome_iff_exists.mp engine_step_matched_isSome
  rw [hs']
  obtain ⟨q, r, hq, hr, hval⟩ := calculate_physics_eq_some 60 0
    (update_exterior_conditions 0 weather_matched state_example) totals_zero s' hs'
  obtain ⟨d, hd, hqval⟩ := calculate_heat_balance_eq_some _ totals_zero q hq
  -- the exterior is at 0 % RH, so the dew point is the absolute-zero sentinel
  rw [show (update_exterior_conditions 0 weather_matched
      state_example).exterior.humidity = 0 from rfl] at hd
  rw [show (update_exterior_conditions 0 weather_matched
      state_example).exterior.temperature = 20 from rfl] at hd
  unfold dew_point at hd
  rw [if_neg (by norm_num), if_pos rfl] at hd
  have hdval : d = -273.15 := (Option.some_inj.mp hd).symm
  have hqneg : q < 0 := by
    rw [hqval, hdval]
    rw [show (update_exterior_conditions 0 weather_matched
        state_example).interior.temperature = 20 from rfl]
    rw [show (update_exterior_conditions 0 weather_matched
        state_example).exterior.temperature = 20 from rfl]
    rw [show (update_exterior_conditions 0 weather_matched
        state_example).solar_radiation = 0 from rfl]
    rw [show (update_exterior_conditions 0 weather_matched
        state_example).geometry = state_example.geometry from rfl]
    rw [show (update_exterior_conditions 0 weather_matched
        state_example).covering = state_example.covering from rfl]
    rw [show totals_zero.heating = 0 from rfl,
      show totals_zero.ventilation_rate = 0 from rfl,
      show totals_zero.cooling = 0 from rfl]
    have hclamp : max (0 : ℝ)
        (min 1 (0.741 + 0.0062 * (-273.15))) = 0 := by
      rw [min_eq_right (by norm_num), max_eq_left (by norm_num)]
    rw [hclamp]
    unfold conduction_heat_transfer GREENHOUSE_EFFECTIVE_EMISSIVITY
      STEFAN_BOLTZMANN
    have hfa : ((0.3 : ℝ)) ^ (0.25 : ℝ) < 1 :=
      Real.rpow_lt_one (by norm_num) (by norm_num) (by norm_num)
    have hfb : (0 : ℝ) ≤ (0.3 : ℝ) ^ (0.25 : ℝ) :=
      Real.rpow_nonneg (by norm_num) _
    have hroof : 0 < roof_area state_example.geometry := by
      unfold roof_area
      rw [show state_example.geometry.length = 30 from rfl,
        show state_example.geometry.width = 10 from rfl,
        show state_example.geometry.height_ridge = 5 from rfl,
        show state_example.geometry.height_eave = 3 from rfl]
      have : (0 : ℝ) < ((10 / 2 : ℝ) ^ 2 + ((5 : ℝ) - 3) ^ 2) ^ (0.5 : ℝ) :=
        Real.rpow_pos_of_pos (by norm_num) _
      nlinarith
    have hpow : ((20 : ℝ) + 273.15) * (0 + 0.3 * (1 - 0)) ^ (0.25 : ℝ)
        - 273.15 + 273.15 < 20 + 273.15 := by
      rw [sub_add_cancel]
      rw [show (0 : ℝ) + 0.3 * (1 - 0) = 0.3 by norm_num]
      nlinarith
    have hpow0 : (0 : ℝ) ≤ ((20 : ℝ) + 273.15) * (0 + 0.3 * (1 - 0)) ^ (0.25 : ℝ)
        - 273.15 + 273.15 := by
      rw [sub_add_cancel]
      rw [show (0 : ℝ) + 0.3 * (1 - 0) = 0.3 by norm_num]
      positivity
    have hpow4 : (((20 : ℝ) + 273.15) * (0 + 0.3 * (1 - 0)) ^ (0.25 : ℝ)
        - 273.15 + 273.15) ^ 4 < ((20 : ℝ) + 273.15) ^ 4 :=
      pow_lt_pow_left₀ hpow hpow0 (by norm_num)
    nlinarith [hpow4, hroof]
  have hvol : 0 < volume (update_exterior_conditions 0 weather_matched
      state_example).geometry := by
    rw [show (update_exterior_conditions 0 weather_matched
        state_example).geometry = state_example.geometry from rfl]
    unfold volume
    rw [show state_example.geometry.length = 30 from rfl,
      show state_example.geometry.width = 10 from rfl,
      show state_example.geometry.height_ridge = 5 from rfl,
      show state_example.geometry.height_eave = 3 from rfl]
    norm_num
  have hlt := apply_temperature_change_neg 60
    (update_exterior_conditions 0 weather_matched state_example) q
    (by norm_num) hqneg hvol
    (by rw [show (update_exterior_conditions 0 weather_matched
        state_example).interior.temperature = 20 from rfl]; norm_num)
  show s'.interior.temperature < state_example.interior.temperature
  rw [hval]
  exact hlt

/-! ## Wet-bulb temperature lemmas (claim C5) -/

/-- A successful saturation_pressure call implies the Hyland-Wexler range. -/
theorem saturation_pressure_some_range (t y : ℝ)
    (h : saturation_pressure t = some y) : -100 ≤ t ∧ t ≤ 200 := by
  unfold saturation_pressure at h
  split_ifs at h with h1 h2 h3
  · exact ⟨not_lt.mp h2, by linarith⟩
  · exact ⟨by linarith [not_lt.mp h1], not_lt.mp h3⟩

/-- A successful humidity_ratio call implies in-range humidity and
temperature. -/
theorem humidity_ratio_some_facts (t rh p w : ℝ)
    (h : humidity_ratio t rh p = some w) :
    (0 ≤ rh ∧ rh ≤ 100) ∧ (-100 ≤ t ∧ t ≤ 200) := by
  unfold humidity_ratio at h
  by_cases h1 : 0 ≤ rh ∧ rh ≤ 100
  · refine ⟨h1, ?_⟩
    rw [if_neg (not_not_intro h1)] at h
    cases hy : saturation_pressure t with
    | none => rw [hy] at h; exact absurd h (by simp)
    | some y => exact saturation_pressure_some_range t y hy
  · rw [if_pos h1] at h
    exact absurd h (by simp)

/-- Any value the bisection loop returns is at most the upper end of the
bracket, which never rises above the dry-bulb temperature. -/
theorem wet_bulb_go_le (t p wt tol : ℝ) :
    ∀ (fuel : ℕ) (lo hi w : ℝ), lo ≤ hi → hi ≤ t →
      wet_bulb_go t p wt tol fuel lo hi = some w → w ≤ t := by
  intro fuel
  induction fuel with
  | zero =>
    intro lo hi w _ _ h
    exact absurd h (by simp [wet_bulb_go])
  | succ n ih =>
    intro lo hi w hlh hht h
    unfold wet_bulb_go at h
    dsimp only at h
    split at h
    · exact absurd h (by simp)
    · next wc hwc =>
      split_ifs at h with htol hwlt
      · have hw := Option.some_inj.mp h
        rw [← hw]
        linarith
      · exact ih ((lo + hi) / 2) hi w (by linarith) hht h
      · exact ih lo ((lo + hi) / 2) w (by linarith) (by linarith) h

/-- Magnus-Tetens dew point stays at or below the dry-bulb temperature for
in-range humidity and temperature. -/
theorem magnus_dew_point_le (t rh : ℝ) (h1 : 0 < rh) (h2 : rh ≤ 100)
    (ht : -100 ≤ t) : magnus_dew_point t rh ≤ t := by
  unfold magnus_dew_point
  dsimp only
  have hbt : (0 : ℝ) < 237.7 + t := by linarith
  have hlog : Real.log (rh / 100) ≤ 0 :=
    Real.log_nonpos (by positivity) (by linarith [div_le_one_of_le (by linarith : rh ≤ 100) (by norm_num : (0:ℝ) ≤ 100)])
  set alpha := 17.27 * t / (237.7 + t) + Real.log (rh / 100) with halpha
  have halpha0 : alpha ≤ 17.27 * t / (237.7 + t) := by
    rw [halpha]
    linarith
  have hfrac : 17.27 * t / (237.7 + t) < 17.27 := by
    rw [div_lt_iff hbt]
    nlinarith
  have halphaa : alpha < 17.27 := lt_of_le_of_lt halpha0 hfrac
  rw [div_le_iff (by linarith : (0:ℝ) < 17.27 - alpha)]
  have hcross : alpha * (237.7 + t) ≤ 17.27 * t := by
    have := (le_div_iff hbt).mp halpha0
    linarith
  nlinarith

/-- Part 1 of claim C5: whenever wet_bulb_temperature returns a value, it
is at most the dry-bulb temperature. -/
theorem wet_bulb_temperature_le_aux (t rh p tol : ℝ) (fuel : ℕ) (w : ℝ)
    (h : wet_bulb_temperature t rh p tol fuel = some w) : w ≤ t := by
  unfold wet_bulb_temperature at h
  rcases hw : humidity_ratio t rh p with _ | wt <;>
    rcases hd : dew_point t rh with _ | td <;>
      rw [hw, hd] at h
  · exact absurd h (by simp)
  · exact absurd h (by simp)
  · exact absurd h (by simp)
  · obtain ⟨⟨hrh0, hrh1⟩, ht0, ht1⟩ := humidity_ratio_some_facts t rh p wt hw
    have hlo : max (-100 : ℝ) (td - 1) ≤ t := by
      unfold dew_point at hd
      split_ifs at hd with hc1 hc2
      · have htd := Option.some_inj.mp hd
        have := magnus_dew_point_le t rh hc1.1 hc1.2 ht0
        rw [htd] at this
        exact max_le ht0 (by linarith)
      · have htd := Option.some_inj.mp hd
        exact max_le ht0 (by rw [← htd]; linarith)
    exact wet_bulb_go_le t p wt (max (tol * wt) wet_bulb_tol_floor) fuel
      (max (-100) (td - 1)) t w hlo le_rfl h

/-- The Hyland-Wexler ln(p_ws) over water is monotone on [0, 200] °C: the
1/T, quadratic and log T terms dominate the negative linear and cubic
terms there. -/
theorem ln_pws_water_mono (u t : ℝ) (h0 : 0 ≤ u) (h1 : u ≤ t)
    (h2 : t ≤ 200) : ln_pws_water u ≤ ln_pws_water t := by
  unfold ln_pws_water
  obtain ⟨A, hA⟩ : ∃ A : ℝ, A = u + 273.15 := ⟨_, rfl⟩
  obtain ⟨B, hB⟩ : ∃ B : ℝ, B = t + 273.15 := ⟨_, rfl⟩
  rw [← hA, ← hB]
  have hA1 : (273.15 : ℝ) ≤ A := by rw [hA]; linarith
  have hB1 : B ≤ 473.15 := by rw [hB]; linarith
  have hAB : A ≤ B := by rw [hA, hB]; linarith
  have hA0 : (0 : ℝ) < A := by linarith
  have hB0 : (0 : ℝ) < B := by linarith
  have hd0 : 0 ≤ B - A := by linarith
  have hABle : A * B ≤ 223870.9225 := by
    have := mul_le_mul (le_trans hAB hB1) hB1 (le_of_lt hB0) (by norm_num : (0:ℝ) ≤ 473.15)
    linarith
  have hAB0 : 0 < A * B := mul_pos hA0 hB0
  have hA2le : A ^ 2 ≤ 223870.9225 := by nlinarith
  have hB2le : B ^ 2 ≤ 223870.9225 := by nlinarith
  -- the 1/T term
  have hinv : 5800.2206 / A - 5800.2206 / B ≥
      5800.2206 * (B - A) / 223870.9225 := by
    have heq : 5800.2206 / A - 5800.2206 / B = 5800.2206 * (B - A) / (A * B) := by
      field_simp
      ring
    rw [heq]
    exact div_le_div_of_nonneg_left (by nlinarith) hAB0 hABle
  -- the log term
  have hlog : Real.log B - Real.log A ≥ (B - A) / 473.15 := by
    have hlog1 : Real.log (A / B) ≤ A / B - 1 :=
      Real.log_le_sub_one_of_pos (by positivity)
    have hlog2 : Real.log (A / B) = Real.log A - Real.log B :=
      Real.log_div (ne_of_gt hA0) (ne_of_gt hB0)
    have hfrac : (1 : ℝ) - A / B = (B - A) / B := by
      field_simp
    have hfrac2 : (B - A) / B ≥ (B - A) / 473.15 :=
      div_le_div_of_nonneg_left hd0 hB0 hB1
    linarith [hlog2 ▸ hlog1]
  -- the quadratic term
  have hsq : B ^ 2 - A ^ 2 ≥ 546.3 * (B - A) := by
    have hfact : B ^ 2 - A ^ 2 = (B - A) * (B + A) := by ring
    have hsum : (546.3 : ℝ) ≤ B + A := by linarith
    have := mul_le_mul_of_nonneg_left hsum hd0
    linarith [hfact ▸ this]
  -- the cubic term
  have hcube : B ^ 3 - A ^ 3 ≤ 671612.7675 * (B - A) := by
    have hfact : B ^ 3 - A ^ 3 = (B - A) * (B ^ 2 + A * B + A ^ 2) := by ring
    have hsum : B ^ 2 + A * B + A ^ 2 ≤ 671612.7675 := by linarith
    have := mul_le_mul_of_nonneg_left hsum hd0
    linarith [hfact ▸ this]
  ring_nf
  ring_nf at hinv hlog hsq hcube
  linarith [hinv, hlog, hsq, hcube]

/-- The water branch of saturation_pressure, written out. -/
theorem saturation_pressure_water (t : ℝ) (h0 : 0 ≤ t) (h2 : t ≤ 200) :
    saturation_pressure t = some (Real.exp (ln_pws_water t)) := by
  unfold saturation_pressure
  rw [if_neg (not_lt.mpr h0), if_neg (not_lt.mpr h2)]

/-- humidity_ratio at 100 % RH, written out, when the saturation pressure
is below the total pressure. -/
theorem humidity_ratio_100_eval (u p : ℝ) (h0 : 0 ≤ u) (h2 : u ≤ 200)
    (hlt : Real.exp (ln_pws_water u) < p) :
    humidity_ratio u 100 p =
      some (EPSILON * Real.exp (ln_pws_water u) /
        (p - Real.exp (ln_pws_water u))) := by
  unfold humidity_ratio
  rw [if_neg (not_not_intro ⟨by norm_num, le_refl _⟩),
    saturation_pressure_water u h0 h2]
  dsimp only
  rw [show (100 : ℝ) / 100 = 1 by norm_num, one_mul]
  rw [if_neg (by push_neg; linarith)]

/-- A successful humidity_ratio at 100 % RH forces the saturation pressure
below the total pressure. -/
theorem humidity_ratio_100_pws_lt (t p wt : ℝ) (h0 : 0 ≤ t) (h2 : t ≤ 200)
    (h : humidity_ratio t 100 p = some wt) :
    Real.exp (ln_pws_water t) < p := by
  unfold humidity_ratio at h
  rw [if_neg (not_not_intro ⟨by norm_num, le_refl _⟩),
    saturation_pressure_water t h0 h2] at h
  dsimp only at h
  rw [show (100 : ℝ) / 100 = 1 by norm_num, one_mul] at h
  split_ifs at h with hc
  push_neg at hc
  linarith

/-- At 100 % RH the Magnus-Tetens dew point equals the dry-bulb
temperature exactly. -/
theorem magnus_dew_point_100 (t : ℝ) (ht : -100 ≤ t) :
    magnus_dew_point t 100 = t := by
  unfold magnus_dew_point
  dsimp only
  rw [show (100 : ℝ) / 100 = 1 by norm_num, Real.log_one, add_zero]
  have hbt : (0 : ℝ) < 237.7 + t := by linarith
  have hne : 17.27 - 17.27 * t / (237.7 + t) ≠ 0 := by
    have : 17.27 * t / (237.7 + t) < 17.27 := by
      rw [div_lt_iff hbt]
      nlinarith
    linarith
  field_simp
  ring


/-- The saturation pressure over ice at -50 °C is tiny: ln(p_ws) ≤ 2. -/
theorem ln_pws_ice_m50_le : ln_pws_ice (-50) ≤ 2 := by
  unfold ln_pws_ice
  rw [show ((-50) : ℝ) + 273.15 = 223.15 by norm_num]
  have hlog : Real.log 223.15 ≤ 5.5 := by
    rw [Real.log_le_iff_le_exp (by norm_num)]
    have hsplit : Real.exp (5.5 : ℝ) = Real.exp 5 * Real.exp 0.5 := by
      rw [← Real.exp_add]
      norm_num
    have he5 : (2.7182818283 : ℝ) ^ 5 ≤ Real.exp 5 := by
      rw [show (5 : ℝ) = ((5 : ℕ) : ℝ) * 1 by norm_num, Real.exp_nat_mul]
      exact pow_le_pow_left (by norm_num) (le_of_lt Real.exp_one_gt_d9) 5
    have he05 : (1.625 : ℝ) ≤ Real.exp 0.5 := by
      have hs := Real.sum_le_exp_of_nonneg (x := (0.5 : ℝ)) (by norm_num) 3
      rw [Finset.sum_range_succ, Finset.sum_range_succ, Finset.sum_range_succ,
        Finset.sum_range_zero] at hs
      norm_num [Nat.factorial] at hs
      linarith
    rw [hsplit]
    nlinarith [Real.exp_pos (5 : ℝ), Real.exp_pos (0.5 : ℝ)]
  linarith

/-- The wet-bulb solver does return values: at 0 °C and 0 % RH the target
humidity ratio is zero, the evaluation at the first midpoint -50 °C is
floored to zero, and the bisection returns -50 at its first iteration
(within the 1e-8 absolute tolerance floor). -/
theorem wet_bulb_temperature_returns :
    wet_bulb_temperature 0 0 101325 0.001 100 = some (-50) := by
  have hw : humidity_ratio 0 0 101325 = some 0 :=
    humidity_ratio_zero_rh 0 101325 (by norm_num) (by norm_num) (by norm_num)
  have hd : dew_point 0 0 = some (-273.15) := by
    unfold dew_point
    rw [if_neg (by norm_num), if_pos rfl]
  have hX0 := Real.exp_pos (ln_pws_ice (-50))
  have hXle : Real.exp (ln_pws_ice (-50)) ≤ 7.39 := by
    calc Real.exp (ln_pws_ice (-50)) ≤ Real.exp 2 :=
          Real.exp_le_exp.mpr ln_pws_ice_m50_le
      _ = Real.exp 1 ^ 2 := by
          rw [show (2 : ℝ) = ((2 : ℕ) : ℝ) * 1 by norm_num, Real.exp_nat_mul]
      _ ≤ 2.7182818286 ^ 2 :=
          pow_le_pow_left₀ (le_of_lt (Real.exp_pos 1))
            (le_of_lt Real.exp_one_lt_d9) 2
      _ ≤ 7.39 := by norm_num
  have hws : humidity_ratio (-50) 100 101325 =
      some (EPSILON * Real.exp (ln_pws_ice (-50)) /
        (101325 - Real.exp (ln_pws_ice (-50)))) := by
    unfold humidity_ratio
    rw [if_neg (not_not_intro ⟨by norm_num, le_refl _⟩)]
    rw [show saturation_pressure (-50) = some (Real.exp (ln_pws_ice (-50)))
      from by unfold saturation_pressure; rw [if_pos (by norm_num), if_neg (by norm_num)]]
    dsimp only
    rw [show (100 : ℝ) / 100 = 1 by norm_num, one_mul]
    rw [if_neg (by push_neg; linarith)]
  have heps0 : (0 : ℝ) < EPSILON := by unfold EPSILON; norm_num
  have heps1 : EPSILON ≤ 1 := by unfold EPSILON; norm_num
  have hwsle : EPSILON * Real.exp (ln_pws_ice (-50)) /
      (101325 - Real.exp (ln_pws_ice (-50))) ≤ 0.0001 := by
    rw [div_le_iff (by linarith)]
    nlinarith
  have hws0 : 0 ≤ EPSILON * Real.exp (ln_pws_ice (-50)) /
      (101325 - Real.exp (ln_pws_ice (-50))) :=
    div_nonneg (mul_nonneg (le_of_lt heps0) (le_of_lt hX0)) (by linarith)
  have hrfwb : humidity_ratio_from_wet_bulb 0 (-50) 101325 = some 0 := by
    unfold humidity_ratio_from_wet_bulb
    rw [if_neg (by norm_num), hws]
    dsimp only
    rw [if_neg (by norm_num)]
    have hN : ((2830 : ℝ) - 0.24 * (-50)) *
        (EPSILON * Real.exp (ln_pws_ice (-50)) /
          (101325 - Real.exp (ln_pws_ice (-50)))) -
        1.006 * (0 - (-50)) ≤ 0 := by nlinarith
    have hD : (0 : ℝ) < 2830 + 1.86 * 0 - 2.1 * (-50) := by norm_num
    have : ((2830 : ℝ) - 0.24 * (-50)) *
        (EPSILON * Real.exp (ln_pws_ice (-50)) /
          (101325 - Real.exp (ln_pws_ice (-50)))) -
        1.006 * (0 - (-50)) ≤ 0 := hN
    rw [max_eq_left]
    exact div_nonpos_iff.mpr (Or.inr ⟨hN, le_of_lt hD⟩)
  unfold wet_bulb_temperature
  rw [hw, hd]
  dsimp only
  rw [show max (-100 : ℝ) (-273.15 - 1) = -100 from max_eq_left (by norm_num)]
  rw [show max ((0.001 : ℝ) * 0) wet_bulb_tol_floor = wet_bulb_tol_floor from
    max_eq_right (by unfold wet_bulb_tol_floor; norm_num)]
  show wet_bulb_go 0 101325 0 wet_bulb_tol_floor (99 + 1) (-100) 0 = some (-50)
  unfold wet_bulb_go
  dsimp only
  rw [show ((-100 : ℝ) + 0) / 2 = -50 by norm_num, hrfwb]
  dsimp only
  rw [if_pos (by unfold wet_bulb_tol_floor; rw [sub_zero, abs_zero]; norm_num)]

/-! ## Round trip and the boiling-point failure (claim C6) -/

/-- Whatever saturation_pressure returns is positive (an exponential). -/
theorem saturation_pressure_pos (t y : ℝ)
    (h : saturation_pressure t = some y) : 0 < y := by
  unfold saturation_pressure at h
  split_ifs at h <;>
    · rw [← Option.some_inj.mp h]
      exact Real.exp_pos _

/-- Destructuring a successful humidity_ratio call into its parts. -/
theorem humidity_ratio_eq_some_parts (t rh p w : ℝ)
    (h : humidity_ratio t rh p = some w) :
    ∃ pws, saturation_pressure t = some pws ∧ 0 < pws ∧
      (0 ≤ rh ∧ rh ≤ 100) ∧ rh / 100 * pws < p ∧
      w = EPSILON * (rh / 100 * pws) / (p - rh / 100 * pws) := by
  unfold humidity_ratio at h
  by_cases h1 : 0 ≤ rh ∧ rh ≤ 100
  · rw [if_neg (not_not_intro h1)] at h
    cases hy : saturation_pressure t with
    | none => rw [hy] at h; exact absurd h (by simp)
    | some pws =>
      rw [hy] at h
      dsimp only at h
      split_ifs at h with hc
      push_neg at hc
      exact ⟨pws, rfl, saturation_pressure_pos t pws hy, h1, by linarith,
        (Option.some_inj.mp h).symm⟩
  · rw [if_pos h1] at h
    exact absurd h (by simp)

/-- C6 (amended): wherever humidity_ratio(T, RH, P) is defined (vapor
pressure below total pressure), composing with relative_humidity at the
same temperature and pressure recovers RH exactly — in particular to
within 0.5 %. -/
theorem relative_humidity_round_trip :
    ∀ (t rh p w : ℝ), humidity_ratio t rh p = some w →
      relative_humidity t w p = some rh := by
  intro t rh p w h
  obtain ⟨pws, hsp, hpws0, ⟨hrh0, hrh1⟩, hlt, hw⟩ :=
    humidity_ratio_eq_some_parts t rh p w h
  have heps : (0 : ℝ) < EPSILON := by unfold EPSILON; norm_num
  have hq0 : 0 ≤ rh / 100 * pws :=
    mul_nonneg (div_nonneg hrh0 (by norm_num)) (le_of_lt hpws0)
  have hp0 : 0 < p := lt_of_le_of_lt hq0 hlt
  have hd : p - rh / 100 * pws ≠ 0 := ne_of_gt (by linarith)
  unfold relative_humidity
  rw [hsp]
  dsimp only
  have hdpos : (0 : ℝ) < p - rh / 100 * pws := by linarith
  have hw' : w * (p - rh / 100 * pws) = EPSILON * (rh / 100 * pws) := by
    rw [hw]
    exact div_mul_cancel₀ _ (ne_of_gt hdpos)
  have hw0 : (0 : ℝ) ≤ w := by
    rw [hw]
    exact div_nonneg (mul_nonneg heps.le hq0) hdpos.le
  have hEwpos : (0 : ℝ) < EPSILON + w := by linarith
  have hkey : p * w / (EPSILON + w) = rh / 100 * pws := by
    rw [div_eq_iff hEwpos.ne']
    linear_combination hw'
  rw [hkey]
  have hback : (100 : ℝ) * (rh / 100 * pws) / pws = rh := by
    field_simp
  rw [hback, max_eq_right hrh0, min_eq_right hrh1]

/-- C6 witness: a defined point of the round trip — at 20 °C and 0 % RH
the humidity ratio is 0 and relative_humidity recovers 0 % exactly. -/
theorem relative_humidity_round_trip_witness :
    relative_humidity 20 0 101325 = some 0 :=
  relative_humidity_round_trip 20 0 101325 0
    (humidity_ratio_zero_rh 20 101325 (by norm_num) (by norm_num) (by norm_num))

/-- exp(0.92196) is at most 2.51425 (ten Taylor terms plus the remainder
bound). -/
theorem exp_092196_le : Real.exp 0.92196 ≤ 2.51425 := by
  have hb := Real.exp_bound' (x := (0.92196 : ℝ)) (by norm_num) (by norm_num)
    (n := 10) (by norm_num)
  rw [Finset.sum_range_succ, Finset.sum_range_succ, Finset.sum_range_succ,
    Finset.sum_range_succ, Finset.sum_range_succ, Finset.sum_range_succ,
    Finset.sum_range_succ, Finset.sum_range_succ, Finset.sum_range_succ,
    Finset.sum_range_succ, Finset.sum_range_zero] at hb
  norm_num [Nat.factorial] at hb
  linarith

/-- ln(373.15) is at least 5.92196. -/
theorem log_373_15_ge : (5.92196 : ℝ) ≤ Real.log 373.15 := by
  rw [Real.le_log_iff_exp_le (by norm_num)]
  have hsplit : Real.exp (5.92196 : ℝ) = Real.exp 5 * Real.exp 0.92196 := by
    rw [← Real.exp_add]
    norm_num
  have he5 : Real.exp 5 ≤ (2.7182818286 : ℝ) ^ 5 := by
    rw [show (5 : ℝ) = ((5 : ℕ) : ℝ) * 1 by norm_num, Real.exp_nat_mul]
    exact pow_le_pow_left₀ (Real.exp_pos 1).le (le_of_lt Real.exp_one_lt_d9) 5
  rw [hsplit]
  calc Real.exp 5 * Real.exp 0.92196
      ≤ (2.7182818286 : ℝ) ^ 5 * 2.51425 :=
        mul_le_mul he5 exp_092196_le (Real.exp_pos _).le (by positivity)
    _ ≤ 373.15 := by norm_num

/-- The Hyland-Wexler ln p_ws at the boiling point is at least 11.5264. -/
theorem ln_pws_water_boiling_ge : (11.5264 : ℝ) ≤ ln_pws_water 100 := by
  unfold ln_pws_water
  rw [show (100 : ℝ) + 273.15 = 373.15 by norm_num]
  have hlog := log_373_15_ge
  norm_num
  linarith

/-- exp(11.5264) is at least 101325 (eight Taylor terms of exp(0.5264)). -/
theorem exp_115264_ge : (101325 : ℝ) ≤ Real.exp 11.5264 := by
  have hsplit : Real.exp (11.5264 : ℝ) = Real.exp 11 * Real.exp 0.5264 := by
    rw [← Real.exp_add]
    norm_num
  have he11 : (2.7182818283 : ℝ) ^ 11 ≤ Real.exp 11 := by
    rw [show (11 : ℝ) = ((11 : ℕ) : ℝ) * 1 by norm_num, Real.exp_nat_mul]
    exact pow_le_pow_left₀ (by norm_num) (le_of_lt Real.exp_one_gt_d9) 11
  have he05 : (1.69282 : ℝ) ≤ Real.exp 0.5264 := by
    have hs := Real.sum_le_exp_of_nonneg (x := (0.5264 : ℝ)) (by norm_num) 8
    rw [Finset.sum_range_succ, Finset.sum_range_succ, Finset.sum_range_succ,
      Finset.sum_range_succ, Finset.sum_range_succ, Finset.sum_range_succ,
      Finset.sum_range_succ, Finset.sum_range_succ, Finset.sum_range_zero] at hs
    norm_num [Nat.factorial] at hs
    linarith
  rw [hsplit]
  calc (101325 : ℝ) ≤ (2.7182818283 : ℝ) ^ 11 * 1.69282 := by norm_num
    _ ≤ Real.exp 11 * Real.exp 0.5264 :=
        mul_le_mul he11 he05 (by norm_num) (Real.exp_pos _).le

/-- The round trip is not defined on all of [0, 100] x [0, 100]: at 100 degC
and 100 % RH the saturation pressure (about 101418 Pa) exceeds the standard
pressure, humidity_ratio raises, and the composition is undefined rather
than within 0.5 % of RH. -/
theorem humidity_ratio_boiling_round_trip_fails :
    humidity_ratio 100 100 101325 = none ∧
      (humidity_ratio 100 100 101325).bind
        (fun w => relative_humidity 100 w 101325) = none := by
  have hpws : (101325 : ℝ) ≤ Real.exp (ln_pws_water 100) :=
    le_trans exp_115264_ge (Real.exp_le_exp.mpr ln_pws_water_boiling_ge)
  have hnone : humidity_ratio 100 100 101325 = none := by
    unfold humidity_ratio
    rw [if_neg (not_not_intro ⟨by norm_num, le_refl _⟩),
      saturation_pressure_water 100 (by norm_num) (by norm_num)]
    dsimp only
    rw [show (100 : ℝ) / 100 = 1 by norm_num, one_mul]
    rw [if_pos (by linarith)]
  exact ⟨hnone, by rw [hnone]; rfl⟩

/-! ## Wet bulb at saturation over the whole valid range (claim C5) -/

/-- The Hyland-Wexler ln(p_ws) over ice is monotone on [-100, 0] °C: the
1/T and log T terms dominate the negative linear and quartic terms. -/
theorem ln_pws_ice_mono (u t : ℝ) (h0 : -100 ≤ u) (h1 : u ≤ t)
    (h2 : t ≤ 0) : ln_pws_ice u ≤ ln_pws_ice t := by
  unfold ln_pws_ice
  obtain ⟨A, hA⟩ : ∃ A : ℝ, A = u + 273.15 := ⟨_, rfl⟩
  obtain ⟨B, hB⟩ : ∃ B : ℝ, B = t + 273.15 := ⟨_, rfl⟩
  rw [← hA, ← hB]
  have hA1 : (173.15 : ℝ) ≤ A := by rw [hA]; linarith
  have hB1 : B ≤ 273.15 := by rw [hB]; linarith
  have hAB : A ≤ B := by rw [hA, hB]; linarith
  have hA0 : (0 : ℝ) < A := by linarith
  have hB0 : (0 : ℝ) < B := by linarith
  have hd0 : 0 ≤ B - A := by linarith
  have hABle : A * B ≤ 74610.9225 := by
    have := mul_le_mul (le_trans hAB hB1) hB1 (le_of_lt hB0)
      (by norm_num : (0:ℝ) ≤ 273.15)
    linarith
  have hAB0 : 0 < A * B := mul_pos hA0 hB0
  have hA2le : A ^ 2 ≤ 74610.9225 := by nlinarith
  have hB2le : B ^ 2 ≤ 74610.9225 := by nlinarith
  -- the 1/T term
  have hinv : 5674.5359 / A - 5674.5359 / B ≥
      5674.5359 * (B - A) / 74610.9225 := by
    have heq : 5674.5359 / A - 5674.5359 / B = 5674.5359 * (B - A) / (A * B) := by
      field_simp
      ring
    rw [heq]
    exact div_le_div_of_nonneg_left (by nlinarith) hAB0 hABle
  -- the log term
  have hlog : Real.log B - Real.log A ≥ (B - A) / 273.15 := by
    have hlog1 : Real.log (A / B) ≤ A / B - 1 :=
      Real.log_le_sub_one_of_pos (by positivity)
    have hlog2 : Real.log (A / B) = Real.log A - Real.log B :=
      Real.log_div (ne_of_gt hA0) (ne_of_gt hB0)
    have hfrac : (1 : ℝ) - A / B = (B - A) / B := by
      field_simp
    have hfrac2 : (B - A) / B ≥ (B - A) / 273.15 :=
      div_le_div_of_nonneg_left hd0 hB0 hB1
    linarith [hlog2 ▸ hlog1]
  -- the quadratic and cubic terms are increasing
  have hsq : 0 ≤ B ^ 2 - A ^ 2 := by
    have h' : B ^ 2 - A ^ 2 = (B - A) * (B + A) := by ring
    rw [h']
    exact mul_nonneg hd0 (by linarith)
  have hcube : 0 ≤ B ^ 3 - A ^ 3 := by
    have h' : B ^ 3 - A ^ 3 = (B - A) * (B ^ 2 + A * B + A ^ 2) := by ring
    have h'' : 0 ≤ B ^ 2 + A * B + A ^ 2 := by
      nlinarith [sq_nonneg A, sq_nonneg B, mul_nonneg (le_of_lt hA0) (le_of_lt hB0)]
    rw [h']
    exact mul_nonneg hd0 h''
  -- the quartic term
  have hquart : B ^ 4 - A ^ 4 ≤ 81519893.9235 * (B - A) := by
    have hfact : B ^ 4 - A ^ 4 = (B - A) * ((B + A) * (B ^ 2 + A ^ 2)) := by ring
    have hsum1 : B + A ≤ 546.3 := by linarith
    have hsum2 : B ^ 2 + A ^ 2 ≤ 149221.845 := by linarith
    have hprod : (B + A) * (B ^ 2 + A ^ 2) ≤ 81519893.9235 := by
      have := mul_le_mul hsum1 hsum2 (by positivity) (by norm_num : (0:ℝ) ≤ 546.3)
      linarith
    have := mul_le_mul_of_nonneg_left hprod hd0
    linarith [hfact ▸ this]
  ring_nf
  ring_nf at hinv hlog hsq hcube hquart
  linarith [hinv, hlog, hsq, hcube, hquart]

/-- exp(0.61) is at most 1.8404316 (ten Taylor terms plus the remainder
bound). -/
theorem exp_061_le : Real.exp 0.61 ≤ 1.8404316 := by
  have hb := Real.exp_bound' (x := (0.61 : ℝ)) (by norm_num) (by norm_num)
    (n := 10) (by norm_num)
  rw [Finset.sum_range_succ, Finset.sum_range_succ, Finset.sum_range_succ,
    Finset.sum_range_succ, Finset.sum_range_succ, Finset.sum_range_succ,
    Finset.sum_range_succ, Finset.sum_range_succ, Finset.sum_range_succ,
    Finset.sum_range_succ, Finset.sum_range_zero] at hb
  norm_num [Nat.factorial] at hb
  linarith

/-- ln(273.15) is at least 5.61. -/
theorem log_27315_ge : (5.61 : ℝ) ≤ Real.log 273.15 := by
  rw [Real.le_log_iff_exp_le (by norm_num)]
  have hsplit : Real.exp (5.61 : ℝ) = Real.exp 5 * Real.exp 0.61 := by
    rw [← Real.exp_add]
    norm_num
  have he5 : Real.exp 5 ≤ (2.7182818286 : ℝ) ^ 5 := by
    rw [show (5 : ℝ) = ((5 : ℕ) : ℝ) * 1 by norm_num, Real.exp_nat_mul]
    exact pow_le_pow_left₀ (Real.exp_pos 1).le (le_of_lt Real.exp_one_lt_d9) 5
  rw [hsplit]
  calc Real.exp 5 * Real.exp 0.61
      ≤ (2.7182818286 : ℝ) ^ 5 * 1.8404316 :=
        mul_le_mul he5 exp_061_le (Real.exp_pos _).le (by positivity)
    _ ≤ 273.15 := by norm_num

/-- At the branch point 0 °C the ice formulation sits just below the water
formulation (saturation pressures about 611.154 and 611.213 Pa). -/
theorem ln_pws_ice_zero_le : ln_pws_ice 0 ≤ ln_pws_water 0 := by
  unfold ln_pws_ice ln_pws_water
  rw [show (0 : ℝ) + 273.15 = 273.15 by norm_num]
  have hlog := log_27315_ge
  norm_num
  linarith

/-- saturation_pressure is defined everywhere on [-100, 200] °C. -/
theorem saturation_pressure_mem (t : ℝ) (h0 : -100 ≤ t) (h2 : t ≤ 200) :
    ∃ pt, saturation_pressure t = some pt := by
  unfold saturation_pressure
  by_cases ht : t < 0
  · rw [if_pos ht, if_neg (not_lt.mpr h0)]
    exact ⟨_, rfl⟩
  · rw [if_neg ht, if_neg (not_lt.mpr h2)]
    exact ⟨_, rfl⟩

/-- saturation_pressure is monotone across both branches: over ice, across
the 0 °C seam, and over water. -/
theorem saturation_pressure_mono (u t pu pt : ℝ) (h1 : u ≤ t) (h2 : t ≤ 200)
    (hu : saturation_pressure u = some pu)
    (ht : saturation_pressure t = some pt) : pu ≤ pt := by
  unfold saturation_pressure at hu ht
  by_cases hu0 : u < 0
  · rw [if_pos hu0] at hu
    by_cases hu100 : u < -100
    · rw [if_pos hu100] at hu
      exact absurd hu (by simp)
    · rw [if_neg hu100] at hu
      push_neg at hu100
      have hpu := Option.some_inj.mp hu
      by_cases ht0 : t < 0
      · rw [if_pos ht0, if_neg (not_lt.mpr (by linarith : (-100:ℝ) ≤ t))] at ht
        have hpt := Option.some_inj.mp ht
        rw [← hpu, ← hpt]
        exact Real.exp_le_exp.mpr (ln_pws_ice_mono u t hu100 h1 (le_of_lt ht0))
      · rw [if_neg ht0, if_neg (not_lt.mpr h2)] at ht
        push_neg at ht0
        have hpt := Option.some_inj.mp ht
        rw [← hpu, ← hpt]
        refine Real.exp_le_exp.mpr (le_trans
          (ln_pws_ice_mono u 0 hu100 (le_of_lt hu0) le_rfl)
          (le_trans ln_pws_ice_zero_le
            (ln_pws_water_mono 0 t le_rfl ht0 h2)))
  · rw [if_neg hu0] at hu
    push_neg at hu0
    by_cases hu200 : 200 < u
    · rw [if_pos hu200] at hu
      exact absurd hu (by simp)
    · rw [if_neg hu200] at hu
      have hpu := Option.some_inj.mp hu
      have ht0 : ¬ t < 0 := by push_neg; linarith
      rw [if_neg ht0, if_neg (not_lt.mpr h2)] at ht
      have hpt := Option.some_inj.mp ht
      rw [← hpu, ← hpt]
      exact Real.exp_le_exp.mpr (ln_pws_water_mono u t hu0 h1 h2)

/-- A successful humidity_ratio at 100 % RH, destructured. -/
theorem humidity_ratio_100_parts (t p wt : ℝ)
    (h : humidity_ratio t 100 p = some wt) :
    ∃ pws, saturation_pressure t = some pws ∧ 0 < pws ∧ pws < p ∧
      wt = EPSILON * pws / (p - pws) := by
  obtain ⟨pws, hsp, hpos, _, hlt, hw⟩ := humidity_ratio_eq_some_parts t 100 p wt h
  rw [show (100 : ℝ) / 100 = 1 by norm_num, one_mul] at hlt hw
  exact ⟨pws, hsp, hpos, hlt, hw⟩

/-- humidity_ratio at 100 % RH, written out from either saturation branch,
when the saturation pressure is below the total pressure. -/
theorem humidity_ratio_100_eval_sat (u p pu : ℝ)
    (hsp : saturation_pressure u = some pu) (hlt : pu < p) :
    humidity_ratio u 100 p = some (EPSILON * pu / (p - pu)) := by
  unfold humidity_ratio
  rw [if_neg (not_not_intro ⟨by norm_num, le_refl _⟩), hsp]
  dsimp only
  rw [show (100 : ℝ) / 100 = 1 by norm_num, one_mul]
  rw [if_neg (by push_neg; linarith)]

/-- For a wet-bulb guess u strictly below t (anywhere in the valid range
[-100, 200], ice or water branch), the psychrometric equation evaluates
below the saturation humidity ratio target at t. -/
theorem humidity_ratio_from_wet_bulb_lt_target (t u p wt : ℝ)
    (h1 : -100 ≤ t) (h2 : t ≤ 200) (hu0 : -100 ≤ u) (hu2 : u < t)
    (hwt : humidity_ratio t 100 p = some wt) :
    ∃ wc, humidity_ratio_from_wet_bulb t u p = some wc ∧ wc < wt := by
  obtain ⟨pws, hspt, hpws0, hplt, hwteq⟩ := humidity_ratio_100_parts t p wt hwt
  obtain ⟨pu, hspu⟩ := saturation_pressure_mem u hu0 (by linarith)
  have hpu0 : 0 < pu := saturation_pressure_pos u pu hspu
  have hmono : pu ≤ pws :=
    saturation_pressure_mono u t pu pws (le_of_lt hu2) h2 hspu hspt
  have hult : pu < p := lt_of_le_of_lt hmono hplt
  have hws : humidity_ratio u 100 p = some (EPSILON * pu / (p - pu)) :=
    humidity_ratio_100_eval_sat u p pu hspu hult
  have heps : (0 : ℝ) < EPSILON := by unfold EPSILON; norm_num
  have hp0 : (0 : ℝ) < p := lt_trans hpws0 hplt
  have hwt0 : 0 < wt := by
    rw [hwteq]
    exact div_pos (mul_pos heps hpws0) (by linarith)
  have hwsle : EPSILON * pu / (p - pu) ≤ wt := by
    rw [hwteq, div_le_div_iff (by linarith) (by linarith)]
    nlinarith [mul_nonneg (mul_nonneg (le_of_lt heps) (le_of_lt hp0))
      (sub_nonneg.mpr hmono)]
  unfold humidity_ratio_from_wet_bulb
  rw [if_neg (not_lt.mpr (le_of_lt hu2)), hws]
  dsimp only
  by_cases hub : (0 : ℝ) ≤ u
  · rw [if_pos hub]
    refine ⟨_, rfl, ?_⟩
    have hD : (0 : ℝ) < 2501 + 1.86 * t - 4.186 * u := by linarith
    have hc0 : (0 : ℝ) < 2501 - 2.326 * u := by linarith
    have hN : (2501 - 2.326 * u) * (EPSILON * pu / (p - pu)) -
        1.006 * (t - u) < wt * (2501 + 1.86 * t - 4.186 * u) := by
      nlinarith [mul_le_mul_of_nonneg_left hwsle (le_of_lt hc0),
        mul_nonneg (mul_nonneg (by norm_num : (0:ℝ) ≤ 1.86)
          (sub_nonneg.mpr (le_of_lt hu2))) (le_of_lt hwt0)]
    exact max_lt hwt0 ((div_lt_iff hD).mpr hN)
  · rw [if_neg hub]
    push_neg at hub
    refine ⟨_, rfl, ?_⟩
    have hD : (0 : ℝ) < 2830 + 1.86 * t - 2.1 * u := by linarith
    have hc0 : (0 : ℝ) < 2830 - 0.24 * u := by linarith
    have hN : (2830 - 0.24 * u) * (EPSILON * pu / (p - pu)) -
        1.006 * (t - u) < wt * (2830 + 1.86 * t - 2.1 * u) := by
      nlinarith [mul_le_mul_of_nonneg_left hwsle (le_of_lt hc0),
        mul_nonneg (mul_nonneg (by norm_num : (0:ℝ) ≤ 1.86)
          (sub_nonneg.mpr (le_of_lt hu2))) (le_of_lt hwt0)]
    exact max_lt hwt0 ((div_lt_iff hD).mpr hN)

/-- At 100 % RH the bisection always moves the lower end towards t (the
psychrometric evaluation stays below the target), so any returned value is
within half the remaining bracket of t. -/
theorem wet_bulb_go_saturated (t p wt tol : ℝ) (h1 : -100 ≤ t)
    (h2 : t ≤ 200) (hwt : humidity_ratio t 100 p = some wt) :
    ∀ (fuel : ℕ) (lo w : ℝ), -100 ≤ lo → lo < t →
      wet_bulb_go t p wt tol fuel lo t = some w →
      t - w ≤ (t - lo) / 2 ∧ w < t := by
  intro fuel
  induction fuel with
  | zero =>
    intro lo w _ _ h
    exact absurd h (by simp [wet_bulb_go])
  | succ n ih =>
    intro lo w hlo1 hlo2 h
    obtain ⟨wc, hwc, hlt⟩ := humidity_ratio_from_wet_bulb_lt_target t
      ((lo + t) / 2) p wt h1 h2 (by linarith) (by linarith) hwt
    unfold wet_bulb_go at h
    dsimp only at h
    rw [hwc] at h
    dsimp only at h
    split_ifs at h with htol
    · have hw := Option.some_inj.mp h
      rw [← hw]
      constructor <;> linarith
    · have := ih ((lo + t) / 2) w (by linarith) (by linarith) h
      exact ⟨by linarith [this.1], this.2⟩

/-- At the degenerate bracket t = -100, the psychrometric equation at the
wet-bulb guess -100 returns the target itself (the latent-heat corrections
cancel: (2830 + 24)·w / (2830 - 186 + 210) = w). -/
theorem hr_from_wet_bulb_self_m100 (p wt : ℝ)
    (hwt : humidity_ratio (-100) 100 p = some wt) (hwt0 : 0 < wt) :
    humidity_ratio_from_wet_bulb (-100) (-100) p = some wt := by
  unfold humidity_ratio_from_wet_bulb
  rw [if_neg (lt_irrefl (-100 : ℝ)), hwt]
  dsimp only
  rw [if_neg (by norm_num : ¬ (0:ℝ) ≤ (-100 : ℝ))]
  have hx : ((2830 : ℝ) - 0.24 * (-100)) * wt - 1.006 * ((-100 : ℝ) - (-100)) =
      wt * ((2830 : ℝ) + 1.86 * (-100) - 2.1 * (-100)) := by
    ring_nf
  rw [show ((2830 : ℝ) - 0.24 * (-100)) * wt - 1.006 * ((-100 : ℝ) - (-100)) =
      wt * ((2830 : ℝ) + 1.86 * (-100) - 2.1 * (-100)) from hx,
    mul_div_assoc, div_self (by norm_num : ((2830 : ℝ) + 1.86 * (-100) - 2.1 * (-100)) ≠ 0),
    mul_one, max_eq_right (le_of_lt hwt0)]

/-- The saturation pressure over ice at -100 °C is below 1 Pa: ln(p_ws) ≤ 0. -/
theorem ln_pws_ice_m100_le : ln_pws_ice (-100) ≤ 0 := by
  unfold ln_pws_ice
  rw [show ((-100) : ℝ) + 273.15 = 173.15 by norm_num]
  have hlog : Real.log 173.15 ≤ 6 := by
    rw [Real.log_le_iff_le_exp (by norm_num)]
    have h6 : (2.7182818283 : ℝ) ^ 6 ≤ Real.exp 6 := by
      rw [show (6 : ℝ) = ((6 : ℕ) : ℝ) * 1 by norm_num, Real.exp_nat_mul]
      exact pow_le_pow_left₀ (by norm_num) (le_of_lt Real.exp_one_gt_d9) 6
    linarith [show (173.15 : ℝ) ≤ 2.7182818283 ^ 6 by norm_num]
  linarith

/-- C5: whenever wet_bulb_temperature(t, rh, p, tol, max_iter) returns a
value instead of failing, the value is at most the dry-bulb temperature t;
and at RH = 100 %, for every t in the whole valid range [-100, 200] of
saturation_pressure (ice and water branches alike) and every pressure,
the returned value equals t to within 0.5 °C. -/
theorem wet_bulb_le_dry_and_saturated_close :
    (∀ (t rh p tol : ℝ) (fuel : ℕ) (w : ℝ),
      wet_bulb_temperature t rh p tol fuel = some w → w ≤ t) ∧
    (∀ (t p tol : ℝ) (fuel : ℕ) (w : ℝ), -100 ≤ t → t ≤ 200 →
      wet_bulb_temperature t 100 p tol fuel = some w → |w - t| ≤ 0.5) := by
  constructor
  · exact fun t rh p tol fuel w h => wet_bulb_temperature_le_aux t rh p tol fuel w h
  · intro t p tol fuel w h1 h2 h
    unfold wet_bulb_temperature at h
    rcases hw : humidity_ratio t 100 p with _ | wt <;>
      rcases hd : dew_point t 100 with _ | td <;>
        rw [hw, hd] at h
    · exact absurd h (by simp)
    · exact absurd h (by simp)
    · exact absurd h (by simp)
    · have htd : td = t := by
        unfold dew_point at hd
        rw [if_pos ⟨by norm_num, le_refl _⟩] at hd
        have hm := Option.some_inj.mp hd
        rw [← hm, magnus_dew_point_100 t h1]
      dsimp only at h
      rw [htd] at h
      obtain ⟨pws, hspt, hpws0, hplt, hwteq⟩ := humidity_ratio_100_parts t p wt hw
      have heps : (0 : ℝ) < EPSILON := by unfold EPSILON; norm_num
      have hwt0 : 0 < wt := by
        rw [hwteq]
        exact div_pos (mul_pos heps hpws0) (by linarith)
      by_cases hteq : t = -100
      · subst hteq
        rw [show max (-100 : ℝ) (-100 - 1) = -100 from max_eq_left (by norm_num)] at h
        have hrfwb := hr_from_wet_bulb_self_m100 p wt hw hwt0
        cases fuel with
        | zero => exact absurd h (by simp [wet_bulb_go])
        | succ n =>
          unfold wet_bulb_go at h
          dsimp only at h
          rw [show ((-100 : ℝ) + -100) / 2 = -100 by norm_num, hrfwb] at h
          dsimp only at h
          rw [if_pos (by
            rw [sub_self, abs_zero]
            exact lt_of_lt_of_le (by unfold wet_bulb_tol_floor; norm_num)
              (le_max_right _ _))] at h
          have hwv := Option.some_inj.mp h
          rw [← hwv]
          norm_num
      · have hlomax : max (-100 : ℝ) (t - 1) < t :=
          max_lt (lt_of_le_of_ne h1 (Ne.symm hteq)) (by linarith)
        have hres := wet_bulb_go_saturated t p wt
          (max (tol * wt) wet_bulb_tol_floor) h1 h2 hw fuel
          (max (-100) (t - 1)) w (le_max_left _ _) hlomax h
        have hge : t - 1 ≤ max (-100 : ℝ) (t - 1) := le_max_right _ _
        rw [abs_le]
        exact ⟨by linarith [hres.1], by linarith [hres.2]⟩

/-- C5 witness: at t = -100 °C (the ice branch) and RH = 100 %, the solver
returns -100 at its first bisection step, and the claim theorem bounds it
within 0.5 °C of the dry-bulb temperature. -/
theorem wet_bulb_saturated_close_witness :
    wet_bulb_temperature (-100) 100 101325 0.001 100 = some (-100) ∧
      |(-100 : ℝ) - (-100)| ≤ 0.5 := by
  have hX0 := Real.exp_pos (ln_pws_ice (-100))
  have hXle : Real.exp (ln_pws_ice (-100)) ≤ 1 := by
    have hm := Real.exp_le_exp.mpr ln_pws_ice_m100_le
    rwa [Real.exp_zero] at hm
  have hsp : saturation_pressure (-100) = some (Real.exp (ln_pws_ice (-100))) := by
    unfold saturation_pressure
    rw [if_pos (by norm_num : (-100 : ℝ) < 0), if_neg (lt_irrefl (-100 : ℝ))]
  have hws : humidity_ratio (-100) 100 101325 =
      some (EPSILON * Real.exp (ln_pws_ice (-100)) /
        (101325 - Real.exp (ln_pws_ice (-100)))) :=
    humidity_ratio_100_eval_sat (-100) 101325 _ hsp (by linarith)
  have heps : (0 : ℝ) < EPSILON := by unfold EPSILON; norm_num
  have hwt0 : 0 < EPSILON * Real.exp (ln_pws_ice (-100)) /
      (101325 - Real.exp (ln_pws_ice (-100))) :=
    div_pos (mul_pos heps hX0) (by linarith)
  have hrfwb := hr_from_wet_bulb_self_m100 101325 _ hws hwt0
  have hd : dew_point (-100) 100 = some (-100) := by
    unfold dew_point
    rw [if_pos ⟨by norm_num, le_refl _⟩, magnus_dew_point_100 (-100) (by norm_num)]
  have heq : wet_bulb_temperature (-100) 100 101325 0.001 100 = some (-100) := by
    unfold wet_bulb_temperature
    rw [hws, hd]
    dsimp only
    rw [show max (-100 : ℝ) (-100 - 1) = -100 from max_eq_left (by norm_num)]
    show wet_bulb_go (-100) 101325 _ _ (99 + 1) (-100) (-100) = some (-100)
    unfold wet_bulb_go
    dsimp only
    rw [show ((-100 : ℝ) + -100) / 2 = -100 by norm_num, hrfwb]
    dsimp only
    rw [if_pos (by
      rw [sub_self, abs_zero]
      exact lt_of_lt_of_le (by unfold wet_bulb_tol_floor; norm_num)
        (le_max_right _ _))]
  exact ⟨heq, wet_bulb_le_dry_and_saturated_close.2 (-100) 101325 0.001 100
    (-100) (by norm_num) (by norm_num) heq⟩
